import Mathlib

/-!
Verification development for the Omarchy IDE theme generator
(`src/theme_generator.py`).  The color pipeline is embedded shallowly:
strings are Lean `String`s, Python floats are idealized as `ℚ` for the
exact branches and as `ℝ` (with `Real.rpow`) for the gamma power curve,
Python's `int(s, 16)` parser (which tolerates surrounding whitespace,
a sign, single interior underscores and an `0x`/`0X` prefix) is embedded
as `pyInt16`, and `int()` truncation toward zero as `pyInt`.
-/

/-- The ASCII apostrophe character (Python strips it as a quote). -/
def squote : Char := Char.ofNat 39

/-- Characters stripped by `.strip(chr(34) + chr(39))` in
`normalize_hex_color`: the double quote and the apostrophe. -/
def isQuoteChar (c : Char) : Bool := c = '"' || c = squote

/-- A hexadecimal digit as accepted by Python `int(s, 16)`. -/
def isHexDigit (c : Char) : Bool :=
  ('0' ≤ c && c ≤ '9') || ('a' ≤ c && c ≤ 'f') || ('A' ≤ c && c ≤ 'F')

/-- Value of a hexadecimal digit. -/
def hexVal (c : Char) : ℤ :=
  if '0' ≤ c && c ≤ '9' then (c.toNat : ℤ) - ('0'.toNat : ℤ)
  else if 'a' ≤ c && c ≤ 'f' then (c.toNat : ℤ) - ('a'.toNat : ℤ) + 10
  else if 'A' ≤ c && c ≤ 'F' then (c.toNat : ℤ) - ('A'.toNat : ℤ) + 10
  else 0

/-- Python `str.strip`: remove the characters satisfying `p` from both
ends of the string. -/
def pyStrip (p : Char → Bool) (l : List Char) : List Char :=
  ((l.dropWhile p).reverse.dropWhile p).reverse

/-- Digit stream of Python's int literal after the first digit:
hexadecimal digits separated by at most one underscore, not ending in
an underscore.  `pendingUnderscore` records that the previous character
was an underscore (so a digit must follow). -/
def digitsAux (pendingUnderscore : Bool) (acc : ℤ) : List Char → Option ℤ
  | [] => if pendingUnderscore then none else some acc
  | c :: rest =>
    if isHexDigit c then digitsAux false (16 * acc + hexVal c) rest
    else if c = '_' then
      (if pendingUnderscore then none else digitsAux true acc rest)
    else none

/-- A nonempty run of hexadecimal digits with single interior
underscores, as accepted by Python `int(s, 16)` after sign and prefix. -/
def parseDigits : List Char → Option ℤ
  | [] => none
  | c :: rest => if isHexDigit c then digitsAux false (hexVal c) rest else none

/-- After a `0x`/`0X` prefix Python additionally allows one underscore
before the first digit (`int(s-with-0x_12, 16)` is valid). -/
def prefixTail (l : List Char) : Option ℤ :=
  match l with
  | c :: rest => if c = '_' then parseDigits rest else parseDigits l
  | [] => none

/-- The body of a Python base-16 int literal after the optional sign:
an optional `0x`/`0X` prefix followed by the digit stream. -/
def parseBody (l : List Char) : Option ℤ :=
  match l with
  | c0 :: c1 :: rest =>
    if c0 = '0' ∧ (c1 = 'x' ∨ c1 = 'X') then prefixTail rest else parseDigits l
  | _ => parseDigits l

/-- Python `int(s, 16)`: surrounding whitespace is ignored, an optional
sign, an optional `0x`/`0X` prefix, then hexadecimal digits with single
interior underscores.  Returns `none` exactly when Python raises
`ValueError`. -/
def pyInt16 (l : List Char) : Option ℤ :=
  match pyStrip Char.isWhitespace l with
  | [] => none
  | c :: rest =>
    if c = '+' then parseBody rest
    else if c = '-' then (parseBody rest).map (fun z => -z)
    else parseBody (c :: rest)

/-- Source `theme_generator.py` line 41: rewrite a leading `0x` to `#`. -/
def step0x (cv : List Char) : List Char :=
  if cv.take 2 = ['0', 'x'] then '#' :: cv.drop 2 else cv

/-- Source `theme_generator.py` line 45: prepend `#` if absent. -/
def stepHash (cv : List Char) : List Char :=
  if cv.take 1 = ['#'] then cv else '#' :: cv

/-- Source `theme_generator.py` line 49: expand `#RGB` shorthand by doubling
each of the three digits. -/
def stepExpand (cv : List Char) : List Char :=
  if cv.length = 4 then '#' :: (cv.drop 1).flatMap (fun c => [c, c]) else cv

/-- Source `theme_generator.py` lines 53-60: require length 7 and a tail
accepted by `int(·, 16)`. -/
def finalCheck (cv : List Char) : Option (List Char) :=
  if cv.length = 7 ∧ (pyInt16 (cv.drop 1)).isSome then some cv else none

/-- The transformation chain of `normalize_hex_color` on the character
list: strip whitespace, strip quotes, `0x` rewrite, `#` prepend,
shorthand expansion, final validation. -/
def normalizeCore (l : List Char) : Option (List Char) :=
  finalCheck (stepExpand (stepHash (step0x
    (pyStrip isQuoteChar (pyStrip Char.isWhitespace l)))))

/-- Function `normalize_hex_color` (`theme_generator.py` lines 32-60).  An empty
string is falsy in Python and yields `None`. -/
def normalize_hex_color (s : String) : Option String :=
  if s.data = [] then none else (normalizeCore s.data).map String.mk

/-- Python `int(float)`: truncation toward zero, on the `ℚ` idealization
of the float. -/
def pyInt (q : ℚ) : ℤ := if 0 ≤ q then ⌊q⌋ else ⌈q⌉

/-- Lowercase hexadecimal digit character for a value below 16. -/
def hexDigitChar (n : ℕ) : Char :=
  if n < 10 then Char.ofNat ('0'.toNat + n) else Char.ofNat ('a'.toNat + (n - 10))

/-- Fueled digit recursion for `natToHex`. -/
def natToHexGo : ℕ → ℕ → List Char
  | 0, _ => []
  | _ + 1, 0 => []
  | fuel + 1, m + 1 => natToHexGo fuel ((m + 1) / 16) ++ [hexDigitChar ((m + 1) % 16)]

/-- Lowercase hexadecimal digit string of a natural number (as produced
by Python's `x` format code). -/
def natToHex : ℕ → List Char
  | 0 => ['0']
  | n + 1 => natToHexGo (n + 1) (n + 1)

/-- Python's `f-string` format code `02x` on an integer: lowercase hex,
left-padded with zeros to total width 2, the sign counting toward the
width (so `-1` renders as the two characters minus and one). -/
def pyFormat02x (n : ℤ) : List Char :=
  if n < 0 then
    let d := natToHex n.natAbs
    '-' :: (List.replicate (1 - d.length) '0') ++ d
  else
    let d := natToHex n.toNat
    (List.replicate (2 - d.length) '0') ++ d

/-- Function `hex_to_rgb` (`theme_generator.py` lines 115-126): re-normalize,
then parse the three 2-character slices with `int(·, 16)`; any
`ValueError` yields `(0, 0, 0)`. -/
def hex_to_rgb (hex_color : String) : ℤ × ℤ × ℤ :=
  match normalize_hex_color hex_color with
  | none => (0, 0, 0)
  | some s =>
    match pyInt16 ((s.data.drop 1).take 2), pyInt16 ((s.data.drop 3).take 2),
        pyInt16 ((s.data.drop 5).take 2) with
    | some r, some g, some b => (r, g, b)
    | _, _, _ => (0, 0, 0)

/-- Function `rgb_to_hex` (`theme_generator.py` lines 128-130). -/
def rgb_to_hex (r g b : ℤ) : String :=
  String.mk ('#' :: pyFormat02x r ++ pyFormat02x g ++ pyFormat02x b)

/-! Constants of `theme_generator.py` lines 15-29, as exact rationals. -/

def GAMMA_THRESHOLD : ℚ := 3928/100000
def GAMMA_OFFSET : ℚ := 55/1000
def GAMMA_DIVISOR : ℚ := 1292/100
def GAMMA_DENOMINATOR : ℚ := 1055/1000
def LUMINANCE_R : ℚ := 2126/10000
def LUMINANCE_G : ℚ := 7152/10000
def LUMINANCE_B : ℚ := 722/10000
def MIN_READABLE_CONTRAST : ℝ := 3
def MIN_ACCEPTABLE_CONTRAST : ℝ := 2

/-- The gamma exponent 2.4 as a real number. -/
noncomputable def GAMMA_POWER : ℝ := ((24/10 : ℚ) : ℝ)

/-- The gamma-correction curve of `calculate_contrast_ratio`
(`theme_generator.py` lines 81-82): linear below the threshold, a
2.4-power law above it.  The channel fraction is exact (`ℚ`); the power
law lives in `ℝ`. -/
noncomputable def gamma_correct (c : ℚ) : ℝ :=
  if c ≤ GAMMA_THRESHOLD then ((c / GAMMA_DIVISOR : ℚ) : ℝ)
  else (((c + GAMMA_OFFSET) / GAMMA_DENOMINATOR : ℚ) : ℝ) ^ GAMMA_POWER

/-- Function `get_luminance` (nested in `calculate_contrast_ratio`,
`theme_generator.py` lines 69-90): normalize, parse the three channel
slices with `int(·, 16)`, gamma-correct and combine with the sRGB
coefficients; any failure yields luminance 0. -/
noncomputable def get_luminance (hex_color : String) : ℝ :=
  match normalize_hex_color hex_color with
  | none => 0
  | some s =>
    match pyInt16 ((s.data.drop 1).take 2), pyInt16 ((s.data.drop 3).take 2),
        pyInt16 ((s.data.drop 5).take 2) with
    | some r, some g, some b =>
      (LUMINANCE_R : ℝ) * gamma_correct ((r : ℚ) / 255)
        + (LUMINANCE_G : ℝ) * gamma_correct ((g : ℚ) / 255)
        + (LUMINANCE_B : ℝ) * gamma_correct ((b : ℚ) / 255)
    | _, _, _ => 0

open Classical in
/-- Function `calculate_contrast_ratio` (`theme_generator.py` lines 67-99):
brighter luminance in the numerator, 0.05 offsets. -/
noncomputable def calculate_contrast_ratio (color1 color2 : String) : ℝ :=
  let lum1 := get_luminance color1
  let lum2 := get_luminance color2
  if lum1 > lum2 then (lum1 + 5/100) / (lum2 + 5/100)
  else (lum2 + 5/100) / (lum1 + 5/100)

/-- Function `is_light_theme` (`theme_generator.py` lines 132-140): perceived
brightness of the background above one half.  Invalid colors default to
a dark classification. -/
def is_light_theme (background_color : String) : Bool :=
  match normalize_hex_color background_color with
  | none => false
  | some normalized =>
    let rgb := hex_to_rgb normalized
    decide ((299/1000 * (rgb.1 : ℚ) + 587/1000 * (rgb.2.1 : ℚ)
      + 114/1000 * (rgb.2.2 : ℚ)) / 255 > 1/2)

/-- Function `adjust_color_for_theme` (`theme_generator.py` lines 142-161):
scale each channel by `1 - factor` (light, clamped below at 0) or
`1 + factor` (dark, clamped above at 255), truncating like Python
`int()`. -/
def adjust_color_for_theme (hex_color : String) (is_light : Bool) (factor : ℚ) : String :=
  match normalize_hex_color hex_color with
  | none => hex_color
  | some normalized =>
    let rgb := hex_to_rgb normalized
    if is_light then
      rgb_to_hex (max 0 (pyInt ((rgb.1 : ℚ) * (1 - factor))))
        (max 0 (pyInt ((rgb.2.1 : ℚ) * (1 - factor))))
        (max 0 (pyInt ((rgb.2.2 : ℚ) * (1 - factor))))
    else
      rgb_to_hex (min 255 (pyInt ((rgb.1 : ℚ) * (1 + factor))))
        (min 255 (pyInt ((rgb.2.1 : ℚ) * (1 + factor))))
        (min 255 (pyInt ((rgb.2.2 : ℚ) * (1 + factor))))

/-- The seven named surface-adjustment factors of `generate_ui_colors`. -/
structure SurfaceFactors where
  side : ℚ
  panel : ℚ
  tab : ℚ
  input : ℚ
  list : ℚ
  hover : ℚ
  border : ℚ

/-- Factor schedule of `generate_ui_colors` (`theme_generator.py`
lines 170-187): one fixed table per classification. -/
def ui_factors (is_light : Bool) : SurfaceFactors :=
  if is_light then
    { side := 15/100, panel := 2/10, tab := 1/10, input := 5/100,
      list := 1/10, hover := 2/10, border := 3/10 }
  else
    { side := 1/10, panel := 15/100, tab := 5/100, input := 5/100,
      list := 1/10, hover := 15/100, border := 2/10 }

/-- The seven derived surface colors returned by `generate_ui_colors`. -/
structure UIColors where
  side_bg : String
  panel_bg : String
  tab_bg : String
  input_bg : String
  list_bg : String
  hover_bg : String
  border_color : String

/-- One of the eight ANSI slot names, with its color in each table. -/
structure Ansi8 where
  black : String
  red : String
  green : String
  yellow : String
  blue : String
  magenta : String
  cyan : String
  white : String
deriving DecidableEq

/-- A fully validated palette as produced by `validate_and_fix_colors`:
all 19 fields present. -/
structure Palette where
  background : String
  foreground : String
  cursor : String
  normal : Ansi8
  bright : Ansi8
deriving DecidableEq

/-- The raw palette extracted from `alacritty.toml` by
`parse_alacritty_colors`: every field may be absent, and the ANSI
sections are free-form key/value lists. -/
structure RawPalette where
  background : Option String
  foreground : Option String
  cursor : Option String
  normal : List (String × String)
  bright : List (String × String)

/-- Function `generate_ui_colors` (`theme_generator.py` lines 163-197): adjust
the background by the classification's factor schedule. -/
def generate_ui_colors (colors : Palette) (is_light : Bool) : UIColors :=
  let bg := colors.background
  let f := ui_factors is_light
  { side_bg := adjust_color_for_theme bg is_light f.side
    panel_bg := adjust_color_for_theme bg is_light f.panel
    tab_bg := adjust_color_for_theme bg is_light f.tab
    input_bg := adjust_color_for_theme bg is_light f.input
    list_bg := adjust_color_for_theme bg is_light f.list
    hover_bg := adjust_color_for_theme bg is_light f.hover
    border_color := adjust_color_for_theme bg is_light f.border }

/-- A validation diagnostic recorded by `validate_and_fix_colors`.
The constructors carry the data interpolated into the Python message
strings: the field name and, for invalid values, the offending raw
value. -/
inductive Issue where
  /-- message: Invalid (field) color (value) - using fallback -/
  | invalidColor (field : String) (value : String)
  /-- message: Missing (field) color - using fallback -/
  | missingColor (field : String)
  /-- message: Missing cursor color - derived from foreground -/
  | cursorDerivedFromForeground
  /-- message: Low contrast ratio between background and foreground -/
  | lowContrast
  /-- message: Applied fallback colors due to extremely low contrast -/
  | appliedFallbackExtremeLowContrast
deriving DecidableEq

/-- The fallback `normal` table (`theme_generator.py` lines 205-214). -/
def fallback_normal : Ansi8 :=
  { black := "#21222c", red := "#ff5555", green := "#50fa7b",
    yellow := "#f1fa8c", blue := "#bd93f9", magenta := "#ff79c6",
    cyan := "#8be9fd", white := "#f8f8f2" }

/-- The fallback `bright` table (`theme_generator.py` lines 215-224). -/
def fallback_bright : Ansi8 :=
  { black := "#6272a4", red := "#ff6e6e", green := "#69ff94",
    yellow := "#ffffa5", blue := "#d6acff", magenta := "#ff92df",
    cyan := "#a4ffff", white := "#ffffff" }

/-- Lookup `fallback_colors.get(key, default)` for the
primary keys: only background and foreground are present in the
fallback table, so a missing cursor falls back to the background
fallback. -/
def fallbackFor (key : String) : String :=
  if key = "background" then "#282a36"
  else if key = "foreground" then "#f8f8f2"
  else "#282a36"

/-- One iteration of the primary-color loop of `validate_and_fix_colors`
(`theme_generator.py` lines 231-246), processing `key` against the
evolving `fixed_colors` association list and issue list.  The
unconditional fallback branch for a missing cursor is kept even though
foreground is always resolved first. -/
def processPrimary (key : String) (raw : Option String)
    (st : List (String × String) × List Issue) :
    List (String × String) × List Issue :=
  match raw with
  | some v =>
    match normalize_hex_color v with
    | some n => (st.1 ++ [(key, n)], st.2)
    | none => (st.1 ++ [(key, fallbackFor key)], st.2 ++ [Issue.invalidColor key v])
  | none =>
    if key = "cursor" then
      match st.1.lookup "foreground" with
      | some f => (st.1 ++ [(key, f)], st.2 ++ [Issue.cursorDerivedFromForeground])
      | none => (st.1 ++ [(key, fallbackFor key)], st.2 ++ [Issue.missingColor key])
    else (st.1 ++ [(key, fallbackFor key)], st.2 ++ [Issue.missingColor key])

/-- The primary loop over the keys background, foreground, cursor in order. -/
def resolvePrimaries (colors : RawPalette) : List (String × String) × List Issue :=
  processPrimary "cursor" colors.cursor
    (processPrimary "foreground" colors.foreground
      (processPrimary "background" colors.background ([], [])))

/-- One iteration of an ANSI loop of `validate_and_fix_colors`
(`theme_generator.py` lines 251-261 and 266-276): normalize the raw
entry if present, else record an issue and use the slot fallback. -/
def resolveSlot (sectionName : String) (fb : String) (slotName : String)
    (raw : List (String × String)) : String × List Issue :=
  match raw.lookup slotName with
  | some v =>
    match normalize_hex_color v with
    | some n => (n, [])
    | none => (fb, [Issue.invalidColor (sectionName ++ "." ++ slotName) v])
  | none => (fb, [Issue.missingColor (sectionName ++ "." ++ slotName)])

/-- An ANSI loop over the eight slot names in source order. -/
def resolveAnsi (sectionName : String) (fb : Ansi8)
    (raw : List (String × String)) : Ansi8 × List Issue :=
  let b := resolveSlot sectionName fb.black "black" raw
  let r := resolveSlot sectionName fb.red "red" raw
  let g := resolveSlot sectionName fb.green "green" raw
  let y := resolveSlot sectionName fb.yellow "yellow" raw
  let u := resolveSlot sectionName fb.blue "blue" raw
  let m := resolveSlot sectionName fb.magenta "magenta" raw
  let c := resolveSlot sectionName fb.cyan "cyan" raw
  let w := resolveSlot sectionName fb.white "white" raw
  ({ black := b.1, red := r.1, green := g.1, yellow := y.1,
     blue := u.1, magenta := m.1, cyan := c.1, white := w.1 },
   b.2 ++ r.2 ++ g.2 ++ y.2 ++ u.2 ++ m.2 ++ c.2 ++ w.2)

/-- The slot-resolution phase of `validate_and_fix_colors`
(`theme_generator.py` lines 227-276), before the contrast check. -/
def resolveColors (colors : RawPalette) : Palette × List Issue :=
  let prim := resolvePrimaries colors
  let norm := resolveAnsi "normal" fallback_normal colors.normal
  let brt := resolveAnsi "bright" fallback_bright colors.bright
  ({ background := ((prim.1.lookup "background").getD ""),
     foreground := ((prim.1.lookup "foreground").getD ""),
     cursor := ((prim.1.lookup "cursor").getD ""),
     normal := norm.1, bright := brt.1 },
   prim.2 ++ norm.2 ++ brt.2)

open Classical in
/-- Function `validate_and_fix_colors` (`theme_generator.py` lines 199-291):
resolve all slots, then check the background/foreground contrast ratio;
below 3.0 record a low-contrast issue, and below 2.0 additionally
overwrite both with the fallback pair and record a distinct issue. -/
noncomputable def validate_and_fix_colors (colors : RawPalette) :
    Palette × List Issue :=
  let res := resolveColors colors
  let contrast := calculate_contrast_ratio res.1.background res.1.foreground
  if contrast < MIN_READABLE_CONTRAST then
    if contrast < MIN_ACCEPTABLE_CONTRAST then
      ({ res.1 with background := "#282a36", foreground := "#f8f8f2" },
       res.2 ++ [Issue.lowContrast, Issue.appliedFallbackExtremeLowContrast])
    else (res.1, res.2 ++ [Issue.lowContrast])
  else res

/-- One syntax-highlight rule of the generated theme: a list of
TextMate scopes and the single foreground color assigned to them. -/
structure TokenRule where
  scope : List String
  foreground : String
deriving DecidableEq

/-- The generated theme document: the theme name, the flat
`workbench.colorCustomizations` key/value mapping in source order, and
the ordered `textMateRules` list. -/
structure ThemeDocument where
  colorTheme : String
  colorCustomizations : List (String × String)
  textMateRules : List TokenRule

/-- Function `generate_vscode_theme` (`theme_generator.py` lines 346-822): the
full static mapping, transcribed entry by entry in source order
(duplicate keys of the Python dict literal are kept; they carry equal
values, so lookup agrees with the Python dict).  After validation every
slot is present, so the `.get` defaults of the source are dead and each
access is the corresponding `Palette` field. -/
def generate_vscode_theme (theme_name : String) (colors : Palette) : ThemeDocument :=
  let is_light := is_light_theme colors.background
  let bg := colors.background
  let fg := colors.foreground
  let normal := colors.normal
  let bright := colors.bright
  let cursor := colors.cursor
  let ui := generate_ui_colors colors is_light
  { colorTheme := theme_name
    colorCustomizations := [
      ("editor.background", bg),
      ("editor.foreground", fg),
      ("editor.emptyBackground", bg),
      ("editor.lineHighlightBackground", ui.list_bg),
      ("editor.selectionBackground", ui.tab_bg),
      ("editor.findMatchBackground", normal.green),
      ("editor.findMatchHighlightBackground", ui.hover_bg),
      ("editorCursor.foreground", cursor),
      ("editorWhitespace.foreground", normal.black),
      ("editorIndentGuide.background", ui.border_color),
      ("editorIndentGuide.activeBackground", normal.green),
      ("editor.lineHighlightBorder", ui.border_color),
      ("editor.rangeHighlightBackground", ui.hover_bg),
      ("editor.symbolHighlightBackground", ui.hover_bg),
      ("editor.wordHighlightBackground", ui.hover_bg),
      ("editor.wordHighlightStrongBackground", ui.tab_bg),
      ("editorBracketMatch.background", ui.border_color),
      ("editorBracketMatch.border", normal.blue),
      ("editorCodeLens.foreground", normal.black),
      ("editorError.foreground", normal.red),
      ("editorWarning.foreground", normal.yellow),
      ("editorInfo.foreground", normal.blue),
      ("editorHint.foreground", normal.green),
      ("editorGutter.background", bg),
      ("editorGutter.modifiedBackground", normal.yellow),
      ("editorGutter.addedBackground", normal.green),
      ("editorGutter.deletedBackground", normal.red),
      ("editorUnnecessaryCode.opacity", "0.4"),
      ("editorSuggestWidget.background", ui.input_bg),
      ("editorSuggestWidget.border", ui.border_color),
      ("editorSuggestWidget.selectedBackground", ui.list_bg),
      ("editorSuggestWidget.highlightForeground", normal.blue),
      ("editorHoverWidget.background", ui.input_bg),
      ("editorHoverWidget.border", ui.border_color),
      ("editorGroup.background", bg),
      ("editorGroup.border", ui.border_color),
      ("editorGroupHeader.background", ui.side_bg),
      ("editorGroupHeader.tabsBackground", ui.side_bg),
      ("editorGroupHeader.tabsBorder", ui.border_color),
      ("editorGroupHeader.noTabsBackground", ui.side_bg),
      ("breadcrumb.background", bg),
      ("breadcrumb.foreground", fg),
      ("breadcrumb.focusForeground", normal.blue),
      ("breadcrumb.activeSelectionForeground", fg),
      ("breadcrumbPicker.background", ui.input_bg),
      ("breadcrumbPicker.foreground", fg),
      ("sideBar.background", ui.side_bg),
      ("sideBar.foreground", fg),
      ("sideBarTitle.foreground", fg),
      ("sideBarSectionHeader.background", ui.border_color),
      ("sideBarSectionHeader.foreground", fg),
      ("activityBar.background", ui.side_bg),
      ("activityBar.foreground", fg),
      ("activityBar.activeBorder", normal.blue),
      ("activityBar.activeBackground", ui.hover_bg),
      ("activityBar.inactiveForeground", normal.black),
      ("activityBarBadge.background", normal.red),
      ("activityBarBadge.foreground", bg),
      ("statusBar.background", ui.side_bg),
      ("statusBar.foreground", fg),
      ("statusBar.debuggingBackground", normal.red),
      ("statusBar.debuggingForeground", fg),
      ("statusBar.noFolderBackground", ui.side_bg),
      ("statusBar.noFolderForeground", fg),
      ("statusBarItem.prominentBackground", ui.tab_bg),
      ("statusBarItem.prominentForeground", fg),
      ("statusBarItem.hoverBackground", ui.hover_bg),
      ("statusBarItem.errorBackground", normal.red),
      ("statusBarItem.errorForeground", fg),
      ("statusBarItem.warningBackground", normal.yellow),
      ("statusBarItem.warningForeground", bg),
      ("titleBar.activeBackground", ui.side_bg),
      ("titleBar.activeForeground", fg),
      ("titleBar.inactiveBackground", ui.panel_bg),
      ("titleBar.inactiveForeground", normal.black),
      ("tab.activeBackground", ui.tab_bg),
      ("tab.activeForeground", fg),
      ("tab.inactiveBackground", ui.side_bg),
      ("tab.inactiveForeground", normal.black),
      ("tab.border", ui.border_color),
      ("tab.activeBorder", normal.blue),
      ("tab.hoverBackground", ui.hover_bg),
      ("tab.hoverForeground", fg),
      ("tab.unfocusedActiveBackground", ui.tab_bg),
      ("tab.unfocusedActiveForeground", normal.black),
      ("tab.unfocusedInactiveBackground", ui.side_bg),
      ("tab.unfocusedInactiveForeground", normal.black),
      ("panel.background", ui.panel_bg),
      ("panel.foreground", fg),
      ("panel.border", ui.border_color),
      ("panelTitle.activeForeground", fg),
      ("panelTitle.inactiveForeground", normal.black),
      ("panelTitle.activeBorder", normal.blue),
      ("terminal.background", bg),
      ("terminal.foreground", fg),
      ("terminal.ansiBlack", normal.black),
      ("terminal.ansiRed", normal.red),
      ("terminal.ansiGreen", normal.green),
      ("terminal.ansiYellow", normal.yellow),
      ("terminal.ansiBlue", normal.blue),
      ("terminal.ansiMagenta", normal.magenta),
      ("terminal.ansiCyan", normal.cyan),
      ("terminal.ansiWhite", normal.white),
      ("terminal.ansiBrightBlack", bright.black),
      ("terminal.ansiBrightRed", bright.red),
      ("terminal.ansiBrightGreen", bright.green),
      ("terminal.ansiBrightYellow", bright.yellow),
      ("terminal.ansiBrightBlue", bright.blue),
      ("terminal.ansiBrightMagenta", bright.magenta),
      ("terminal.ansiBrightCyan", bright.cyan),
      ("terminal.ansiBrightWhite", bright.white),
      ("terminal.border", ui.border_color),
      ("terminalCursor.background", cursor),
      ("terminalCursor.foreground", bg),
      ("input.background", ui.input_bg),
      ("input.foreground", fg),
      ("input.border", ui.border_color),
      ("input.placeholderForeground", normal.black),
      ("inputOption.activeBorder", normal.blue),
      ("inputValidation.infoBackground", normal.blue),
      ("inputValidation.infoBorder", normal.blue),
      ("inputValidation.warningBackground", normal.yellow),
      ("inputValidation.warningBorder", normal.yellow),
      ("inputValidation.errorBackground", normal.red),
      ("inputValidation.errorBorder", normal.red),
      ("dropdown.background", ui.input_bg),
      ("dropdown.foreground", fg),
      ("dropdown.border", ui.border_color),
      ("dropdown.listBackground", ui.input_bg),
      ("list.activeSelectionBackground", ui.list_bg),
      ("list.activeSelectionForeground", fg),
      ("list.hoverBackground", ui.hover_bg),
      ("list.hoverForeground", fg),
      ("list.focusBackground", ui.list_bg),
      ("list.focusForeground", fg),
      ("list.inactiveSelectionBackground", ui.list_bg),
      ("list.inactiveSelectionForeground", fg),
      ("list.inactiveFocusBackground", ui.list_bg),
      ("list.inactiveFocusForeground", fg),
      ("list.warningForeground", normal.yellow),
      ("list.errorForeground", normal.red),
      ("list.infoForeground", normal.blue),
      ("list.highlightForeground", normal.blue),
      ("list.deemphasizedForeground", normal.black),
      ("ai-prompt-bar.background", ui.input_bg),
      ("ai-prompt-bar.foreground", fg),
      ("ai-prompt-bar.border", normal.blue),
      ("ai-prompt-bar.button.background", ui.list_bg),
      ("ai-prompt-bar.button.foreground", fg),
      ("ai-prompt-bar.button.hoverBackground", ui.hover_bg),
      ("ai-prompt-bar.button.keep.background", normal.green),
      ("ai-prompt-bar.button.keep.foreground", bg),
      ("chat.background", ui.side_bg),
      ("chat.foreground", fg),
      ("chat.border", normal.blue),
      ("chat.requestBackground", ui.input_bg),
      ("chat.responseBackground", ui.list_bg),
      ("button.background", ui.input_bg),
      ("button.foreground", fg),
      ("button.hoverBackground", ui.hover_bg),
      ("button.border", ui.border_color),
      ("button.secondaryBackground", ui.panel_bg),
      ("button.secondaryForeground", fg),
      ("button.secondaryHoverBackground", ui.hover_bg),
      ("button.prominentBackground", normal.blue),
      ("button.prominentForeground", bg),
      ("button.prominentHoverBackground", bright.blue),
      ("scrollbarSlider.background", ui.border_color),
      ("scrollbarSlider.hoverBackground", normal.black),
      ("scrollbarSlider.activeBackground", normal.blue),
      ("focusBorder", normal.blue),
      ("contrastBorder", ui.border_color),
      ("contrastActiveBorder", normal.blue),
      ("foreground", fg),
      ("disabledForeground", normal.black),
      ("errorForeground", normal.red),
      ("descriptionForeground", normal.black),
      ("widget.background", ui.input_bg),
      ("widget.foreground", fg),
      ("widget.border", ui.border_color),
      ("widget.shadow", "#00000040"),
      ("editorWidget.background", ui.input_bg),
      ("editorWidget.foreground", fg),
      ("editorWidget.border", ui.border_color),
      ("editorWidget.resizeBorder", normal.blue),
      ("inputOption.activeBackground", normal.blue),
      ("inputOption.activeForeground", bg),
      ("inputOption.activeBorder", normal.blue),
      ("inputOption.hoverBackground", ui.hover_bg),
      ("selection.background", normal.blue),
      ("editorLineNumber.foreground", normal.black),
      ("editorLineNumber.activeForeground", fg),
      ("editorLineNumber.background", bg),
      ("actionItem.background", ui.input_bg),
      ("actionItem.foreground", fg),
      ("actionItem.border", ui.border_color),
      ("actionItem.hoverBackground", ui.hover_bg),
      ("actionItem.hoverForeground", fg),
      ("actionItem.activeBackground", ui.list_bg),
      ("actionItem.activeForeground", fg),
      ("actionItem.disabledForeground", normal.black),
      ("actionLabel.background", ui.input_bg),
      ("actionLabel.foreground", fg),
      ("actionLabel.border", ui.border_color),
      ("actionLabel.hoverBackground", ui.hover_bg),
      ("actionLabel.hoverForeground", fg),
      ("actionLabel.activeBackground", ui.list_bg),
      ("actionLabel.activeForeground", fg),
      ("actionLabel.disabledForeground", normal.black),
      ("menuEntry.background", ui.input_bg),
      ("menuEntry.foreground", fg),
      ("menuEntry.border", ui.border_color),
      ("menuEntry.hoverBackground", ui.hover_bg),
      ("menuEntry.hoverForeground", fg),
      ("menuEntry.activeBackground", ui.list_bg),
      ("menuEntry.activeForeground", fg),
      ("menuEntry.disabledForeground", normal.black),
      ("outlineElement.background", ui.side_bg),
      ("outlineElement.foreground", fg),
      ("outlineElement.border", ui.border_color),
      ("outlineElement.hoverBackground", ui.hover_bg),
      ("outlineElement.hoverForeground", fg),
      ("outlineElement.activeBackground", ui.list_bg),
      ("outlineElement.activeForeground", fg),
      ("outlineElement.icon", normal.blue),
      ("outlineElement.activeIcon", normal.cyan),
      ("outlineElement.inactiveIcon", normal.black),
      ("codicon.foreground", normal.blue),
      ("codicon.activeForeground", normal.cyan),
      ("codicon.inactiveForeground", normal.black),
      ("codicon.hoverForeground", normal.cyan),
      ("codicon.disabledForeground", normal.black),
      ("codicon.symbolClass", normal.cyan),
      ("codicon.symbolMethod", normal.green),
      ("codicon.symbolFunction", normal.green),
      ("codicon.symbolVariable", normal.blue),
      ("codicon.symbolInterface", normal.cyan),
      ("codicon.symbolModule", normal.cyan),
      ("codicon.symbolProperty", normal.blue),
      ("codicon.symbolEnum", normal.yellow),
      ("codicon.symbolKeyword", normal.magenta),
      ("codicon.symbolSnippet", normal.green),
      ("codicon.symbolColor", normal.magenta),
      ("codicon.symbolFile", normal.cyan),
      ("codicon.symbolReference", normal.blue),
      ("codicon.symbolFolder", normal.blue),
      ("codicon.symbolTypeParameter", normal.cyan),
      ("codicon.symbolUnit", normal.yellow),
      ("codicon.symbolValue", normal.yellow),
      ("codicon.symbolEnum", normal.yellow),
      ("codicon.symbolStruct", normal.cyan),
      ("codicon.symbolEvent", normal.red),
      ("codicon.symbolOperator", normal.red),
      ("codicon.symbolTypeParameter", normal.cyan),
      ("icon.foreground", normal.blue),
      ("icon.activeForeground", normal.cyan),
      ("icon.inactiveForeground", normal.black),
      ("icon.hoverForeground", normal.cyan),
      ("icon.disabledForeground", normal.black),
      ("icon.warningForeground", normal.yellow),
      ("icon.errorForeground", normal.red),
      ("icon.successForeground", normal.green),
      ("icon.infoForeground", normal.blue),
      ("symbolIcon.arrayForeground", normal.yellow),
      ("symbolIcon.booleanForeground", normal.blue),
      ("symbolIcon.classForeground", normal.cyan),
      ("symbolIcon.colorForeground", normal.magenta),
      ("symbolIcon.constantForeground", normal.yellow),
      ("symbolIcon.constructorForeground", normal.green),
      ("symbolIcon.enumeratorForeground", normal.yellow),
      ("symbolIcon.enumeratorMemberForeground", normal.blue),
      ("symbolIcon.eventForeground", normal.red),
      ("symbolIcon.fieldForeground", normal.blue),
      ("symbolIcon.fileForeground", normal.cyan),
      ("symbolIcon.folderForeground", normal.blue),
      ("symbolIcon.functionForeground", normal.green),
      ("symbolIcon.interfaceForeground", normal.cyan),
      ("symbolIcon.keyForeground", normal.blue),
      ("symbolIcon.keywordForeground", normal.magenta),
      ("symbolIcon.methodForeground", normal.green),
      ("symbolIcon.moduleForeground", normal.cyan),
      ("symbolIcon.namespaceForeground", normal.cyan),
      ("symbolIcon.nullForeground", normal.red),
      ("symbolIcon.numberForeground", normal.yellow),
      ("symbolIcon.objectForeground", normal.blue),
      ("symbolIcon.operatorForeground", normal.red),
      ("symbolIcon.packageForeground", normal.cyan),
      ("symbolIcon.propertyForeground", normal.blue),
      ("symbolIcon.referenceForeground", normal.blue),
      ("symbolIcon.snippetForeground", normal.green),
      ("symbolIcon.stringForeground", normal.green),
      ("symbolIcon.structForeground", normal.cyan),
      ("symbolIcon.textForeground", fg),
      ("symbolIcon.typeParameterForeground", normal.cyan),
      ("symbolIcon.unitForeground", normal.yellow),
      ("symbolIcon.variableForeground", normal.blue),
      ("debugIcon.startForeground", normal.green),
      ("debugIcon.pauseForeground", normal.yellow),
      ("debugIcon.stopForeground", normal.red),
      ("debugIcon.disconnectForeground", normal.red),
      ("debugIcon.restartForeground", normal.green),
      ("debugIcon.stepOverForeground", normal.blue),
      ("debugIcon.stepIntoForeground", normal.blue),
      ("debugIcon.stepOutForeground", normal.blue),
      ("debugIcon.continueForeground", normal.green),
      ("debugIcon.stepBackForeground", normal.blue),
      ("problemsErrorIcon.foreground", normal.red),
      ("problemsWarningIcon.foreground", normal.yellow),
      ("problemsInfoIcon.foreground", normal.blue),
      ("tree.expandIcon", normal.blue),
      ("tree.collapseIcon", normal.blue),
      ("commentsView.resolvedIcon", normal.green),
      ("commentsView.unresolvedIcon", normal.blue)]
    textMateRules := [
      { scope := ["comment", "punctuation.definition.comment",
          "comment.line", "comment.block"],
        foreground := normal.black },
      { scope := ["string", "string.quoted", "string.quoted.single",
          "string.quoted.double"],
        foreground := normal.green },
      { scope := ["constant.numeric", "constant.numeric.integer",
          "constant.numeric.float"],
        foreground := normal.yellow },
      { scope := ["constant.language", "constant.character",
          "constant.character.escape"],
        foreground := normal.red },
      { scope := ["variable", "variable.other", "variable.parameter"],
        foreground := fg },
      { scope := ["keyword", "storage.type", "storage.modifier",
          "storage.class"],
        foreground := normal.magenta },
      { scope := ["entity.name.function", "support.function",
          "meta.function-call"],
        foreground := normal.blue },
      { scope := ["entity.name.class", "entity.name.type", "support.class"],
        foreground := normal.cyan },
      { scope := ["entity.name.tag", "support.type"],
        foreground := normal.green },
      { scope := ["punctuation.definition.string",
          "punctuation.definition.parameters"],
        foreground := normal.black }] }

/-- A lowercase hexadecimal digit. -/
def isLowerHexDigit (c : Char) : Bool :=
  ('0' ≤ c && c ≤ '9') || ('a' ≤ c && c ≤ 'f')

/-- A canonical color as the spec uses the word for outputs: the hash
character followed by exactly six lowercase hexadecimal digits. -/
def isCanonicalHexColor (s : String) : Bool :=
  match s.data with
  | c :: t => c = '#' && t.length = 6 && t.all isLowerHexDigit
  | [] => false

/-- A color whose body is six hexadecimal digits of either case after
the hash character (the inputs on which channel parsing is clean). -/
def hasHexBody (s : String) : Bool :=
  match s.data with
  | c :: t => c = '#' && t.length = 6 && t.all isHexDigit
  | [] => false

/-- The eight normal-intensity slot colors of a palette, as a list
(following the spec's phrase "drawn from the normal-intensity palette
slots"). -/
def normalSlotColors (p : Palette) : List String :=
  [p.normal.black, p.normal.red, p.normal.green, p.normal.yellow,
   p.normal.blue, p.normal.magenta, p.normal.cyan, p.normal.white]

/-- A raw palette with every color field absent. -/
def emptyRaw : RawPalette := ⟨none, none, none, [], []⟩

/-- The raw palette parsed from the spec's minimal source: only
background and foreground declared, no ANSI sections (the parser always
returns empty mappings for absent sections). -/
def minimalRaw : RawPalette :=
  ⟨some "#282a36", some "#f8f8f2", none, [], []⟩

/-- The raw palette of the extreme-low-contrast scenario: white
background, near-white foreground. -/
def whiteOnWhiteRaw : RawPalette :=
  ⟨some "#ffffff", some "#fefefe", none, [], []⟩

/-- A validated palette whose foreground differs from all eight normal
slot colors (used against claim C6). -/
def fgNotSlotPalette : Palette :=
  { background := "#282a36", foreground := "#123456",
    cursor := "#f8f8f2", normal := fallback_normal,
    bright := fallback_bright }

/-- The resolved palette of the all-fallback scenarios. -/
def fallbackPalette : Palette :=
  { background := "#282a36", foreground := "#f8f8f2",
    cursor := "#f8f8f2", normal := fallback_normal,
    bright := fallback_bright }

/-! ## Helper lemmas: stripping and last characters -/

theorem dropWhile_cons_of_neg {p : Char → Bool} {c : Char} {l : List Char}
    (h : p c = false) : List.dropWhile p (c :: l) = c :: l := by
  simp [List.dropWhile_cons, h]

theorem getLast?_cons_ne {a : Char} {l : List Char} (h : l ≠ []) :
    (a :: l).getLast? = l.getLast? := by
  cases l with
  | nil => exact absurd rfl h
  | cons b m => exact List.getLast?_cons_cons

/-- A list whose last element fails `p` is not all-`p`, so `dropWhile`
leaves a nonempty suffix with the same last element. -/
theorem dropWhile_ne_nil_of_last {p : Char → Bool} {l : List Char} {c : Char}
    (hl : l.getLast? = some c) (hc : p c = false) :
    List.dropWhile p l ≠ [] := by
  intro hnil
  rw [List.dropWhile_eq_nil_iff] at hnil
  have hmem : c ∈ l := List.mem_of_getLast?_eq_some hl
  exact absurd (hnil c hmem) (by simp [hc])

theorem getLast?_dropWhile {p : Char → Bool} {l : List Char}
    (h : List.dropWhile p l ≠ []) :
    (List.dropWhile p l).getLast? = l.getLast? := by
  induction l with
  | nil => simp at h
  | cons a l ih =>
    rw [List.dropWhile_cons]
    by_cases hp : p a
    · rw [if_pos hp]
      rw [List.dropWhile_cons, if_pos hp] at h
      have hl : l ≠ [] := by rintro rfl; simp at h
      rw [ih h, getLast?_cons_ne hl]
    · rw [if_neg hp]

/-- When neither end of the list satisfies `p`, `pyStrip p` is the
identity. -/
theorem pyStrip_eq_self {p : Char → Bool} {l : List Char}
    (hhead : ∀ c, l.head? = some c → p c = false)
    (hlast : ∀ c, l.getLast? = some c → p c = false) :
    pyStrip p l = l := by
  have h1 : List.dropWhile p l = l := by
    cases l with
    | nil => rfl
    | cons a l' => exact dropWhile_cons_of_neg (hhead a rfl)
  have h2 : List.dropWhile p l.reverse = l.reverse := by
    cases hrev : l.reverse with
    | nil => rfl
    | cons b m =>
      have hb : p b = false := hlast b (by rw [← List.head?_reverse, hrev]; rfl)
      exact dropWhile_cons_of_neg hb
  unfold pyStrip
  rw [h1, h2, List.reverse_reverse]

/-- When the last element fails `p`, `pyStrip p` only strips from the
front. -/
theorem pyStrip_eq_dropWhile {p : Char → Bool} {l : List Char} {c : Char}
    (hl : l.getLast? = some c) (hc : p c = false) :
    pyStrip p l = List.dropWhile p l := by
  have hlast2 : (List.dropWhile p l).getLast? = some c :=
    (getLast?_dropWhile (dropWhile_ne_nil_of_last hl hc)).trans hl
  have h2 : List.dropWhile p (List.dropWhile p l).reverse
      = (List.dropWhile p l).reverse := by
    cases hrev : (List.dropWhile p l).reverse with
    | nil => rfl
    | cons b m =>
      have hb : p b = false := by
        rw [← List.head?_reverse, hrev] at hlast2
        injection hlast2 with hbc
        rw [hbc]
        exact hc
      exact dropWhile_cons_of_neg hb
  unfold pyStrip
  rw [h2, List.reverse_reverse]

/-! ## Helper lemmas: the `int(s, 16)` grammar -/

theorem digitsAux_last {m : List Char} {b : Bool} {acc v : ℤ} {c : Char}
    (h : digitsAux b acc m = some v) (hc : m.getLast? = some c) :
    isHexDigit c = true := by
  induction m generalizing b acc with
  | nil => simp at hc
  | cons a m ih =>
    simp only [digitsAux] at h
    by_cases ha : isHexDigit a
    · rw [if_pos ha] at h
      cases m with
      | nil =>
        simp only [List.getLast?_singleton, Option.some.injEq] at hc
        rw [← hc]
        exact ha
      | cons a2 m2 => exact ih h (by rwa [List.getLast?_cons_cons] at hc)
    · rw [if_neg ha] at h
      by_cases ha2 : a = '_'
      · rw [if_pos ha2] at h
        cases b with
        | true => simp at h
        | false =>
          cases m with
          | nil => simp [digitsAux] at h
          | cons a2 m2 => exact ih h (by rwa [List.getLast?_cons_cons] at hc)
      · rw [if_neg ha2] at h
        simp at h

theorem parseDigits_last {m : List Char} {v : ℤ} {c : Char}
    (h : parseDigits m = some v) (hc : m.getLast? = some c) :
    isHexDigit c = true := by
  cases m with
  | nil => simp [parseDigits] at h
  | cons a m' =>
    simp only [parseDigits] at h
    by_cases ha : isHexDigit a
    · rw [if_pos ha] at h
      cases m' with
      | nil =>
        simp only [List.getLast?_singleton, Option.some.injEq] at hc
        rw [← hc]
        exact ha
      | cons a2 m2 => exact digitsAux_last h (by rwa [List.getLast?_cons_cons] at hc)
    · rw [if_neg ha] at h
      simp at h

theorem prefixTail_last {m : List Char} {v : ℤ} {c : Char}
    (h : prefixTail m = some v) (hc : m.getLast? = some c) :
    isHexDigit c = true := by
  cases m with
  | nil => simp [prefixTail] at h
  | cons a m' =>
    simp only [prefixTail] at h
    by_cases ha : a = '_'
    · rw [if_pos ha] at h
      cases m' with
      | nil => simp [parseDigits] at h
      | cons a2 m2 =>
        exact parseDigits_last h (by rwa [List.getLast?_cons_cons] at hc)
    · rw [if_neg ha] at h
      exact parseDigits_last h hc

theorem parseBody_last {m : List Char} {v : ℤ} {c : Char}
    (h : parseBody m = some v) (hc : m.getLast? = some c) :
    isHexDigit c = true := by
  match m with
  | [] => simp [parseBody, parseDigits] at h
  | [a] =>
    simp only [parseBody] at h
    exact parseDigits_last h hc
  | c0 :: c1 :: rest =>
    simp only [parseBody] at h
    by_cases hp : c0 = '0' ∧ (c1 = 'x' ∨ c1 = 'X')
    · rw [if_pos hp] at h
      cases rest with
      | nil => simp [prefixTail] at h
      | cons a2 m2 =>
        have htr : (c0 :: c1 :: a2 :: m2).getLast? = (a2 :: m2).getLast? := by
          rw [List.getLast?_cons_cons, List.getLast?_cons_cons]
        exact prefixTail_last h (by rwa [htr] at hc)
    · rw [if_neg hp] at h
      exact parseDigits_last h hc

theorem pyInt16_last {t : List Char} {c : Char}
    (hv : (pyInt16 t).isSome) (hc : t.getLast? = some c)
    (hcw : c.isWhitespace = false) : isHexDigit c = true := by
  rw [pyInt16, pyStrip_eq_dropWhile hc hcw] at hv
  have hne := dropWhile_ne_nil_of_last hc hcw
  have hlast2 : (List.dropWhile Char.isWhitespace t).getLast? = some c :=
    (getLast?_dropWhile hne).trans hc
  cases hd : List.dropWhile Char.isWhitespace t with
  | nil => exact absurd hd hne
  | cons a m =>
    rw [hd] at hv hlast2
    dsimp only at hv
    have hbody : ∀ {v : ℤ}, parseBody m = some v → m ≠ [] → isHexDigit c = true := by
      intro v hval hm
      exact parseBody_last hval (by rwa [getLast?_cons_ne hm] at hlast2)
    by_cases ha1 : a = '+'
    · rw [if_pos ha1] at hv
      obtain ⟨v, hval⟩ := Option.isSome_iff_exists.mp hv
      have hm : m ≠ [] := by
        rintro rfl
        simp [parseBody, parseDigits] at hval
      exact hbody hval hm
    · rw [if_neg ha1] at hv
      by_cases ha2 : a = '-'
      · rw [if_pos ha2] at hv
        rw [Option.isSome_map'] at hv
        obtain ⟨v, hval⟩ := Option.isSome_iff_exists.mp hv
        have hm : m ≠ [] := by
          rintro rfl
          simp [parseBody, parseDigits] at hval
        exact hbody hval hm
      · rw [if_neg ha2] at hv
        obtain ⟨v, hval⟩ := Option.isSome_iff_exists.mp hv
        exact parseBody_last hval hlast2

theorem hex_not_ws {c : Char} (h : isHexDigit c = true) :
    c.isWhitespace = false := by
  cases hw : c.isWhitespace with
  | false => rfl
  | true =>
    exfalso
    have hcases : ((c = ' ' ∨ c = '\t') ∨ c = '\r') ∨ c = '\n' := by
      simpa [Char.isWhitespace] using hw
    rcases hcases with ((rfl | rfl) | rfl) | rfl <;> exact absurd h (by decide)

theorem hex_not_quote {c : Char} (h : isHexDigit c = true) :
    isQuoteChar c = false := by
  cases hq : isQuoteChar c with
  | false => rfl
  | true =>
    exfalso
    have hcases : c = '"' ∨ c = squote := by
      simpa [isQuoteChar] using hq
    rcases hcases with rfl | rfl <;> exact absurd h (by decide)

theorem hex_ne {c d : Char} (h : isHexDigit c = true)
    (hd : isHexDigit d = false) : c ≠ d := by
  rintro rfl
  rw [h] at hd
  exact Bool.true_eq_false.mp hd

theorem digitsAux_isSome_of_hex {m : List Char}
    (hm : ∀ x ∈ m, isHexDigit x = true) (acc : ℤ) :
    (digitsAux false acc m).isSome := by
  induction m generalizing acc with
  | nil => simp [digitsAux]
  | cons a m ih =>
    have ha := hm a (by simp)
    simp only [digitsAux]
    rw [if_pos ha]
    exact ih (fun x hx => hm x (by simp [hx])) _

theorem parseDigits_isSome_of_hex {m : List Char} (hne : m ≠ [])
    (hm : ∀ x ∈ m, isHexDigit x = true) : (parseDigits m).isSome := by
  cases m with
  | nil => exact absurd rfl hne
  | cons a m' =>
    simp only [parseDigits]
    rw [if_pos (hm a (by simp))]
    exact digitsAux_isSome_of_hex (fun x hx => hm x (by simp [hx])) _

theorem pyInt16_isSome_of_hex {t : List Char} (hne : t ≠ [])
    (hm : ∀ x ∈ t, isHexDigit x = true) : (pyInt16 t).isSome := by
  obtain ⟨a, m, rfl⟩ : ∃ a m, t = a :: m := by
    cases t with
    | nil => exact absurd rfl hne
    | cons a m => exact ⟨a, m, rfl⟩
  have ha := hm a (by simp)
  have hstrip : pyStrip Char.isWhitespace (a :: m) = a :: m := by
    refine pyStrip_eq_self (fun c hc => ?_) (fun c hc => ?_)
    · rw [List.head?_cons, Option.some.injEq] at hc
      rw [← hc]
      exact hex_not_ws ha
    · exact hex_not_ws (hm c (List.mem_of_getLast?_eq_some hc))
  rw [pyInt16, hstrip]
  dsimp only
  rw [if_neg (hex_ne ha (by decide)), if_neg (hex_ne ha (by decide))]
  cases m with
  | nil =>
    simp only [parseBody]
    exact parseDigits_isSome_of_hex (by simp) hm
  | cons c1 rest =>
    simp only [parseBody]
    have hc1 := hm c1 (by simp)
    rw [if_neg ?hcond]
    case hcond =>
      rintro ⟨-, hx | hx⟩ <;> exact absurd hx (hex_ne hc1 (by decide))
    exact parseDigits_isSome_of_hex (by simp) hm

theorem char_le_toNat {a b : Char} (h : a ≤ b) : a.toNat ≤ b.toNat := by
  rw [Char.le_def, UInt32.le_def, BitVec.le_def] at h
  exact h

theorem char_toNat_of_le {a c : Char} {n : ℕ} (h : a ≤ c) (ha : a.toNat = n) :
    n ≤ c.toNat := ha ▸ char_le_toNat h

theorem char_toNat_of_ge {c b : Char} {n : ℕ} (h : c ≤ b) (hb : b.toNat = n) :
    c.toNat ≤ n := hb ▸ char_le_toNat h

theorem hexVal_nonneg_le {c : Char} (h : isHexDigit c = true) :
    0 ≤ hexVal c ∧ hexVal c ≤ 15 := by
  rw [isHexDigit] at h
  simp only [Bool.or_eq_true, Bool.and_eq_true, decide_eq_true_eq] at h
  unfold hexVal
  rcases h with (⟨h1, h2⟩ | ⟨h1, h2⟩) | ⟨h1, h2⟩
  · have n1 := char_toNat_of_le h1 (show ('0' : Char).toNat = 48 from rfl)
    have n2 := char_toNat_of_ge h2 (show ('9' : Char).toNat = 57 from rfl)
    rw [if_pos (by simp [h1, h2]), show ('0' : Char).toNat = 48 from rfl]
    omega
  · have n1 := char_toNat_of_le h1 (show ('a' : Char).toNat = 97 from rfl)
    have n2 := char_toNat_of_ge h2 (show ('f' : Char).toNat = 102 from rfl)
    rw [if_neg (by
      simp only [Bool.and_eq_true, decide_eq_true_eq]
      rintro ⟨-, hle⟩
      have := char_toNat_of_ge hle (show ('9' : Char).toNat = 57 from rfl)
      omega)]
    rw [if_pos (by simp [h1, h2]), show ('a' : Char).toNat = 97 from rfl]
    omega
  · have n1 := char_toNat_of_le h1 (show ('A' : Char).toNat = 65 from rfl)
    have n2 := char_toNat_of_ge h2 (show ('F' : Char).toNat = 70 from rfl)
    rw [if_neg (by
      simp only [Bool.and_eq_true, decide_eq_true_eq]
      rintro ⟨-, hle⟩
      have := char_toNat_of_ge hle (show ('9' : Char).toNat = 57 from rfl)
      omega)]
    rw [if_neg (by
      simp only [Bool.and_eq_true, decide_eq_true_eq]
      rintro ⟨hge, -⟩
      have := char_toNat_of_le hge (show ('a' : Char).toNat = 97 from rfl)
      omega)]
    rw [if_pos (by simp [h1, h2]), show ('A' : Char).toNat = 65 from rfl]
    omega

theorem pyInt16_pair {c1 c2 : Char} (h1 : isHexDigit c1 = true)
    (h2 : isHexDigit c2 = true) :
    pyInt16 [c1, c2] = some (16 * hexVal c1 + hexVal c2) := by
  have hstrip : pyStrip Char.isWhitespace [c1, c2] = [c1, c2] := by
    refine pyStrip_eq_self (fun c hc => ?_) (fun c hc => ?_)
    · rw [List.head?_cons, Option.some.injEq] at hc
      rw [← hc]
      exact hex_not_ws h1
    · rw [show ([c1, c2] : List Char).getLast? = some c2 from by
        rw [List.getLast?_cons_cons, List.getLast?_singleton],
        Option.some.injEq] at hc
      rw [← hc]
      exact hex_not_ws h2
  rw [pyInt16, hstrip]
  dsimp only
  rw [if_neg (hex_ne h1 (by decide)), if_neg (hex_ne h1 (by decide))]
  simp only [parseBody]
  rw [if_neg (by rintro ⟨-, hx | hx⟩ <;> exact absurd hx (hex_ne h2 (by decide)))]
  simp only [parseDigits]
  rw [if_pos h1]
  simp only [digitsAux]
  rw [if_pos h2]
  simp [digitsAux]

/-! ## Helper lemmas: the shape of normalization results -/

theorem stepHash_take_one (cv : List Char) : (stepHash cv).take 1 = ['#'] := by
  unfold stepHash
  split
  · assumption
  · simp

theorem stepExpand_take_one {cv : List Char} (h : cv.take 1 = ['#']) :
    (stepExpand cv).take 1 = ['#'] := by
  unfold stepExpand
  split
  · simp
  · exact h

theorem finalCheck_eq_some {cv r : List Char} (h : finalCheck cv = some r) :
    r = cv ∧ cv.length = 7 ∧ (pyInt16 (cv.drop 1)).isSome := by
  unfold finalCheck at h
  split at h
  · rename_i hcond
    injection h with h'
    exact ⟨h'.symm, hcond.1, hcond.2⟩
  · simp at h

/-- Every successful result of `normalize_hex_color` is the hash
character followed by a six-character tail accepted by `int(·, 16)`. -/
theorem normalize_some_shape {s r : String}
    (h : normalize_hex_color s = some r) :
    ∃ t, r.data = '#' :: t ∧ t.length = 6 ∧ (pyInt16 t).isSome := by
  unfold normalize_hex_color at h
  split at h
  · exact absurd h (by simp)
  · cases hc : normalizeCore s.data with
    | none => rw [hc] at h; simp at h
    | some cv =>
      rw [hc] at h
      simp only [Option.map_some'] at h
      injection h with h'
      have htake : cv.take 1 = ['#'] ∧ cv.length = 7 ∧ (pyInt16 (cv.drop 1)).isSome := by
        unfold normalizeCore at hc
        obtain ⟨hr, hlen, hvalid⟩ := finalCheck_eq_some hc
        refine ⟨?_, by rw [hr]; exact hlen, by rw [hr]; exact hvalid⟩
        rw [hr]
        exact stepExpand_take_one (stepHash_take_one _)
      obtain ⟨ht1, ht2, ht3⟩ := htake
      cases cv with
      | nil => simp at ht1
      | cons a u =>
        simp only [List.take_succ_cons, List.take_zero, List.cons.injEq] at ht1
        refine ⟨u, ?_, ?_, ?_⟩
        · rw [← h', ht1.1]
        · simpa using ht2
        · simpa using ht3

/-- A normalization result whose tail does not end in whitespace (hence,
by pyInt16_last, ends in a hexadecimal digit) re-normalizes to itself. -/
theorem normalize_fixpoint {r : String} {t : List Char}
    (hr : r.data = '#' :: t) (hlen : t.length = 6)
    (hvalid : (pyInt16 t).isSome)
    (hlast : ∀ c, t.getLast? = some c →
      c.isWhitespace = false ∧ isQuoteChar c = false) :
    normalize_hex_color r = some r := by
  have htne : t ≠ [] := by rintro rfl; simp at hlen
  have hlast_r : ∀ c, r.data.getLast? = some c →
      c.isWhitespace = false ∧ isQuoteChar c = false := by
    intro c hc
    rw [hr, getLast?_cons_ne htne] at hc
    exact hlast c hc
  have hstrip1 : pyStrip Char.isWhitespace r.data = r.data := by
    refine pyStrip_eq_self (fun c hc => ?_) (fun c hc => (hlast_r c hc).1)
    rw [hr, List.head?_cons, Option.some.injEq] at hc
    rw [← hc]
    decide
  have hstrip2 : pyStrip isQuoteChar r.data = r.data := by
    refine pyStrip_eq_self (fun c hc => ?_) (fun c hc => (hlast_r c hc).2)
    rw [hr, List.head?_cons, Option.some.injEq] at hc
    rw [← hc]
    decide
  unfold normalize_hex_color
  rw [if_neg (by rw [hr]; simp)]
  unfold normalizeCore
  rw [hstrip1, hstrip2, hr]
  rw [show step0x ('#' :: t) = '#' :: t from by
    unfold step0x
    rw [if_neg]
    intro hx
    rw [List.take_succ_cons] at hx
    simp at hx]
  rw [show stepHash ('#' :: t) = '#' :: t from by
    unfold stepHash
    rw [if_pos]
    simp]
  rw [show stepExpand ('#' :: t) = '#' :: t from by
    unfold stepExpand
    rw [if_neg]
    simp [hlen]]
  rw [show finalCheck ('#' :: t) = some ('#' :: t) from by
    unfold finalCheck
    rw [if_pos ⟨by simp [hlen], by simpa using hvalid⟩]]
  rw [Option.map_some']
  rw [show String.mk ('#' :: t) = r from by rw [← hr]]

/-- A string of the form hash plus six hexadecimal digits normalizes to
itself. -/
theorem normalize_of_hex_body {s : String} (h : hasHexBody s = true) :
    normalize_hex_color s = some s := by
  unfold hasHexBody at h
  cases hs : s.data with
  | nil => rw [hs] at h; simp at h
  | cons c t =>
    rw [hs] at h
    simp only [Bool.and_eq_true, decide_eq_true_eq, List.all_eq_true] at h
    obtain ⟨⟨hc, hlen⟩, hall⟩ := h
    refine normalize_fixpoint (t := t) (by rw [hs, hc]) hlen
      (pyInt16_isSome_of_hex (by rintro rfl; simp at hlen)
        (fun x hx => hall x hx)) ?_
    intro d hd
    have hdh := hall d (List.mem_of_getLast?_eq_some hd)
    exact ⟨hex_not_ws hdh, hex_not_quote hdh⟩

/-- Conditional idempotence: a normalization result that does not end in
whitespace re-normalizes to itself. -/
theorem normalize_idem_of_last_not_ws {x r : String}
    (h : normalize_hex_color x = some r)
    (hw : ∀ c, r.data.getLast? = some c → c.isWhitespace = false) :
    normalize_hex_color r = some r := by
  obtain ⟨t, hr, hlen, hvalid⟩ := normalize_some_shape h
  have htne : t ≠ [] := by rintro rfl; simp at hlen
  refine normalize_fixpoint hr hlen hvalid ?_
  intro c hc
  have hcw : c.isWhitespace = false := by
    refine hw c ?_
    rw [hr, getLast?_cons_ne htne]
    exact hc
  exact ⟨hcw, hex_not_quote (pyInt16_last hvalid hc hcw)⟩

theorem lower_hex_is_hex {c : Char} (h : isLowerHexDigit c = true) :
    isHexDigit c = true := by
  rw [isLowerHexDigit] at h
  rw [isHexDigit]
  simp only [Bool.or_eq_true, Bool.and_eq_true] at h ⊢
  tauto

theorem canonical_has_hex_body {s : String} (h : isCanonicalHexColor s = true) :
    hasHexBody s = true := by
  unfold isCanonicalHexColor at h
  unfold hasHexBody
  cases hs : s.data with
  | nil => rw [hs] at h; simp at h
  | cons c t =>
    rw [hs] at h
    simp only [Bool.and_eq_true, decide_eq_true_eq, List.all_eq_true] at h ⊢
    exact ⟨h.1, fun x hx => lower_hex_is_hex (h.2 x hx)⟩

/-! ## Helper lemmas: canonical outputs of the adjustment primitive -/

theorem list_len6 {t : List Char} (h : t.length = 6) :
    ∃ a b c d e f, t = [a, b, c, d, e, f] := by
  cases t with
  | nil => simp at h
  | cons a t =>
  cases t with
  | nil => simp at h
  | cons b t =>
  cases t with
  | nil => simp at h
  | cons c t =>
  cases t with
  | nil => simp at h
  | cons d t =>
  cases t with
  | nil => simp at h
  | cons e t =>
  cases t with
  | nil => simp at h
  | cons f t =>
  cases t with
  | nil => exact ⟨a, b, c, d, e, f, rfl⟩
  | cons g t => simp at h

/-- On a hash-plus-six-hex-digits color, `hex_to_rgb` returns the three
parsed channels, each in `[0, 255]`. -/
theorem hex_to_rgb_of_hex_body {s : String} (h : hasHexBody s = true) :
    ∃ r g b : ℤ, hex_to_rgb s = (r, g, b) ∧
      0 ≤ r ∧ r ≤ 255 ∧ 0 ≤ g ∧ g ≤ 255 ∧ 0 ≤ b ∧ b ≤ 255 := by
  have hnorm : normalize_hex_color s = some s := normalize_of_hex_body h
  unfold hasHexBody at h
  cases hs : s.data with
  | nil => rw [hs] at h; simp at h
  | cons c t =>
    rw [hs] at h
    simp only [Bool.and_eq_true, decide_eq_true_eq, List.all_eq_true] at h
    obtain ⟨⟨hc, hlen⟩, hall⟩ := h
    obtain ⟨a1, a2, a3, a4, a5, a6, rfl⟩ := list_len6 hlen
    have h1 := hall a1 (by simp)
    have h2 := hall a2 (by simp)
    have h3 := hall a3 (by simp)
    have h4 := hall a4 (by simp)
    have h5 := hall a5 (by simp)
    have h6 := hall a6 (by simp)
    rw [hex_to_rgb.eq_def, hnorm]
    dsimp only
    rw [hs]
    have e1 : ((c :: [a1, a2, a3, a4, a5, a6]).drop 1).take 2 = [a1, a2] := rfl
    have e2 : ((c :: [a1, a2, a3, a4, a5, a6]).drop 3).take 2 = [a3, a4] := rfl
    have e3 : ((c :: [a1, a2, a3, a4, a5, a6]).drop 5).take 2 = [a5, a6] := rfl
    rw [e1, e2, e3, pyInt16_pair h1 h2, pyInt16_pair h3 h4, pyInt16_pair h5 h6]
    refine ⟨_, _, _, rfl, ?_⟩
    obtain ⟨b1, b1'⟩ := hexVal_nonneg_le h1
    obtain ⟨b2, b2'⟩ := hexVal_nonneg_le h2
    obtain ⟨b3, b3'⟩ := hexVal_nonneg_le h3
    obtain ⟨b4, b4'⟩ := hexVal_nonneg_le h4
    obtain ⟨b5, b5'⟩ := hexVal_nonneg_le h5
    obtain ⟨b6, b6'⟩ := hexVal_nonneg_le h6
    refine ⟨by omega, by omega, by omega, by omega, by omega, by omega⟩

theorem pyInt_nonneg_le {q : ℚ} (h0 : 0 ≤ q) :
    0 ≤ pyInt q ∧ (pyInt q : ℚ) ≤ q := by
  rw [pyInt, if_pos h0]
  exact ⟨Int.floor_nonneg.mpr h0, Int.floor_le q⟩

theorem adjust_channel_light {r : ℤ} {f : ℚ} (hr0 : 0 ≤ r) (hr1 : r ≤ 255)
    (hf0 : 0 ≤ f) (hf1 : f ≤ 1) :
    0 ≤ max 0 (pyInt ((r : ℚ) * (1 - f)))
      ∧ max 0 (pyInt ((r : ℚ) * (1 - f))) ≤ 255 := by
  have hq : 0 ≤ (r : ℚ) * (1 - f) :=
    mul_nonneg (by exact_mod_cast hr0) (by linarith)
  obtain ⟨h1, h2⟩ := pyInt_nonneg_le hq
  refine ⟨le_max_left _ _, max_le (by norm_num) ?_⟩
  have hle : (r : ℚ) * (1 - f) ≤ 255 := by
    have : (r : ℚ) * (1 - f) ≤ (r : ℚ) * 1 :=
      mul_le_mul_of_nonneg_left (by linarith) (by exact_mod_cast hr0)
    have hr255 : (r : ℚ) ≤ 255 := by exact_mod_cast hr1
    linarith
  exact_mod_cast le_trans h2 hle

theorem adjust_channel_dark {r : ℤ} {f : ℚ} (hr0 : 0 ≤ r) (hf0 : 0 ≤ f) :
    0 ≤ min 255 (pyInt ((r : ℚ) * (1 + f)))
      ∧ min 255 (pyInt ((r : ℚ) * (1 + f))) ≤ 255 := by
  have hq : 0 ≤ (r : ℚ) * (1 + f) :=
    mul_nonneg (by exact_mod_cast hr0) (by linarith)
  obtain ⟨h1, -⟩ := pyInt_nonneg_le hq
  exact ⟨le_min (by norm_num) h1, min_le_left _ _⟩

set_option maxRecDepth 4096 in
theorem pyFormat02x_canonical_nat : ∀ m : ℕ, m < 256 →
    (pyFormat02x (m : ℤ)).length = 2
      ∧ ∀ c ∈ pyFormat02x (m : ℤ), isLowerHexDigit c = true := by decide

theorem pyFormat02x_canonical {n : ℤ} (h0 : 0 ≤ n) (h1 : n ≤ 255) :
    (pyFormat02x n).length = 2
      ∧ ∀ c ∈ pyFormat02x n, isLowerHexDigit c = true := by
  have hn : n = ((n.toNat : ℕ) : ℤ) := (Int.toNat_of_nonneg h0).symm
  rw [hn]
  exact pyFormat02x_canonical_nat n.toNat (by omega)

theorem rgb_to_hex_canonical {r g b : ℤ} (hr0 : 0 ≤ r) (hr1 : r ≤ 255)
    (hg0 : 0 ≤ g) (hg1 : g ≤ 255) (hb0 : 0 ≤ b) (hb1 : b ≤ 255) :
    isCanonicalHexColor (rgb_to_hex r g b) = true := by
  obtain ⟨lr, mr⟩ := pyFormat02x_canonical hr0 hr1
  obtain ⟨lg, mg⟩ := pyFormat02x_canonical hg0 hg1
  obtain ⟨lb, mb⟩ := pyFormat02x_canonical hb0 hb1
  unfold rgb_to_hex isCanonicalHexColor
  show (decide ('#' = '#')
      && decide ((pyFormat02x r ++ pyFormat02x g ++ pyFormat02x b).length = 6)
      && (pyFormat02x r ++ pyFormat02x g ++ pyFormat02x b).all isLowerHexDigit)
    = true
  simp only [Bool.and_eq_true, decide_eq_true_eq, List.all_eq_true,
    List.length_append, List.mem_append]
  refine ⟨⟨trivial, by omega⟩, ?_⟩
  rintro x ((hx | hx) | hx)
  · exact mr x hx
  · exact mg x hx
  · exact mb x hx

/-- Canonical output of the adjustment primitive on clean inputs. -/
theorem adjust_canonical {s n : String} {f : ℚ} {il : Bool}
    (hs : normalize_hex_color s = some n) (hn : hasHexBody n = true)
    (hf0 : 0 ≤ f) (hf1 : f ≤ 1) :
    isCanonicalHexColor (adjust_color_for_theme s il f) = true := by
  rw [adjust_color_for_theme.eq_def, hs]
  dsimp only
  obtain ⟨r, g, b, hrgb, br0, br1, bg0, bg1, bb0, bb1⟩ := hex_to_rgb_of_hex_body hn
  rw [hrgb]
  cases il with
  | true =>
    rw [if_pos rfl]
    obtain ⟨c1, c1'⟩ := adjust_channel_light br0 br1 hf0 hf1
    obtain ⟨c2, c2'⟩ := adjust_channel_light bg0 bg1 hf0 hf1
    obtain ⟨c3, c3'⟩ := adjust_channel_light bb0 bb1 hf0 hf1
    exact rgb_to_hex_canonical c1 c1' c2 c2' c3 c3'
  | false =>
    rw [if_neg (by simp)]
    obtain ⟨c1, c1'⟩ := adjust_channel_dark br0 hf0
    obtain ⟨c2, c2'⟩ := adjust_channel_dark bg0 hf0
    obtain ⟨c3, c3'⟩ := adjust_channel_dark bb0 hf0
    exact rgb_to_hex_canonical c1 c1' c2 c2' c3 c3'

theorem ui_factors_unit (il : Bool) :
    (0 ≤ (ui_factors il).side ∧ (ui_factors il).side ≤ 1)
      ∧ (0 ≤ (ui_factors il).panel ∧ (ui_factors il).panel ≤ 1)
      ∧ (0 ≤ (ui_factors il).tab ∧ (ui_factors il).tab ≤ 1)
      ∧ (0 ≤ (ui_factors il).input ∧ (ui_factors il).input ≤ 1)
      ∧ (0 ≤ (ui_factors il).list ∧ (ui_factors il).list ≤ 1)
      ∧ (0 ≤ (ui_factors il).hover ∧ (ui_factors il).hover ≤ 1)
      ∧ (0 ≤ (ui_factors il).border ∧ (ui_factors il).border ≤ 1) := by
  cases il <;> norm_num [ui_factors]

/-- All seven surface colors are canonical when the background has a
clean normalized form. -/
theorem generate_ui_colors_canonical {p : Palette} {n : String} (il : Bool)
    (hs : normalize_hex_color p.background = some n)
    (hn : hasHexBody n = true) :
    isCanonicalHexColor (generate_ui_colors p il).side_bg = true
      ∧ isCanonicalHexColor (generate_ui_colors p il).panel_bg = true
      ∧ isCanonicalHexColor (generate_ui_colors p il).tab_bg = true
      ∧ isCanonicalHexColor (generate_ui_colors p il).input_bg = true
      ∧ isCanonicalHexColor (generate_ui_colors p il).list_bg = true
      ∧ isCanonicalHexColor (generate_ui_colors p il).hover_bg = true
      ∧ isCanonicalHexColor (generate_ui_colors p il).border_color = true := by
  obtain ⟨f1, f2, f3, f4, f5, f6, f7⟩ := ui_factors_unit il
  exact ⟨adjust_canonical hs hn f1.1 f1.2, adjust_canonical hs hn f2.1 f2.2,
    adjust_canonical hs hn f3.1 f3.2, adjust_canonical hs hn f4.1 f4.2,
    adjust_canonical hs hn f5.1 f5.2, adjust_canonical hs hn f6.1 f6.2,
    adjust_canonical hs hn f7.1 f7.2⟩

/-! ## Helper lemmas: luminance and contrast bounds -/

theorem get_luminance_eval {s n : String} {r g b : ℤ}
    (hs : normalize_hex_color s = some n)
    (h1 : pyInt16 ((n.data.drop 1).take 2) = some r)
    (h2 : pyInt16 ((n.data.drop 3).take 2) = some g)
    (h3 : pyInt16 ((n.data.drop 5).take 2) = some b) :
    get_luminance s =
      (LUMINANCE_R : ℝ) * gamma_correct ((r : ℚ) / 255)
        + (LUMINANCE_G : ℝ) * gamma_correct ((g : ℚ) / 255)
        + (LUMINANCE_B : ℝ) * gamma_correct ((b : ℚ) / 255) := by
  rw [get_luminance.eq_def, hs]
  dsimp only
  rw [h1, h2, h3]

theorem gamma_correct_eval {c : ℚ} (h : ¬ c ≤ GAMMA_THRESHOLD) :
    gamma_correct c
      = (((c + GAMMA_OFFSET) / GAMMA_DENOMINATOR : ℚ) : ℝ) ^ GAMMA_POWER := by
  rw [gamma_correct, if_neg h]

theorem rpow_gamma_bounds {B : ℚ} (h0 : 0 < B) (h1 : B ≤ 1) :
    ((B : ℝ)) ^ (3 : ℕ) ≤ ((B : ℝ)) ^ GAMMA_POWER
      ∧ ((B : ℝ)) ^ GAMMA_POWER ≤ ((B : ℝ)) ^ (2 : ℕ) := by
  have hB0 : (0 : ℝ) < (B : ℝ) := by exact_mod_cast h0
  have hB1 : ((B : ℝ)) ≤ 1 := by exact_mod_cast h1
  have hp : GAMMA_POWER = ((24/10 : ℚ) : ℝ) := rfl
  constructor
  · have hx := Real.rpow_le_rpow_of_exponent_ge hB0 hB1
      (show GAMMA_POWER ≤ (3 : ℝ) by rw [hp]; norm_num)
    rwa [show ((3 : ℝ)) = ((3 : ℕ) : ℝ) by norm_num, Real.rpow_natCast] at hx
  · have hx := Real.rpow_le_rpow_of_exponent_ge hB0 hB1
      (show (2 : ℝ) ≤ GAMMA_POWER by rw [hp]; norm_num)
    rwa [show ((2 : ℝ)) = ((2 : ℕ) : ℝ) by norm_num, Real.rpow_natCast] at hx

theorem gamma_correct_rpow_form {v : ℤ} {B : ℚ}
    (hth : ¬ ((v : ℚ) / 255) ≤ GAMMA_THRESHOLD)
    (hB : ((v : ℚ) / 255 + GAMMA_OFFSET) / GAMMA_DENOMINATOR = B) :
    gamma_correct ((v : ℚ) / 255) = ((B : ℚ) : ℝ) ^ GAMMA_POWER := by
  rw [gamma_correct_eval hth, hB]

/-- The fallback background/foreground pair is comfortably readable:
its contrast ratio is at least 3. -/
theorem contrast_fallback_pair :
    ¬ calculate_contrast_ratio "#282a36" "#f8f8f2" < MIN_READABLE_CONTRAST := by
  have hbg := get_luminance_eval (s := "#282a36") (n := "#282a36")
    (r := 40) (g := 42) (b := 54) (by decide) (by decide) (by decide) (by decide)
  have hfg := get_luminance_eval (s := "#f8f8f2") (n := "#f8f8f2")
    (r := 248) (g := 248) (b := 242) (by decide) (by decide) (by decide) (by decide)
  rw [gamma_correct_rpow_form (v := 40) (B := 2161/10761)
      (by norm_num [GAMMA_THRESHOLD]) (by norm_num [GAMMA_OFFSET, GAMMA_DENOMINATOR]),
    gamma_correct_rpow_form (v := 42) (B := 2241/10761)
      (by norm_num [GAMMA_THRESHOLD]) (by norm_num [GAMMA_OFFSET, GAMMA_DENOMINATOR]),
    gamma_correct_rpow_form (v := 54) (B := 2721/10761)
      (by norm_num [GAMMA_THRESHOLD]) (by norm_num [GAMMA_OFFSET, GAMMA_DENOMINATOR])] at hbg
  rw [gamma_correct_rpow_form (v := 248) (B := 10481/10761)
      (by norm_num [GAMMA_THRESHOLD]) (by norm_num [GAMMA_OFFSET, GAMMA_DENOMINATOR]),
    gamma_correct_rpow_form (v := 242) (B := 10241/10761)
      (by norm_num [GAMMA_THRESHOLD]) (by norm_num [GAMMA_OFFSET, GAMMA_DENOMINATOR])] at hfg
  have cR : (LUMINANCE_R : ℝ) = 2126/10000 := by norm_num [LUMINANCE_R]
  have cG : (LUMINANCE_G : ℝ) = 7152/10000 := by norm_num [LUMINANCE_G]
  have cB : (LUMINANCE_B : ℝ) = 722/10000 := by norm_num [LUMINANCE_B]
  rw [cR, cG, cB] at hbg hfg
  have e1 : ((2161/10761 : ℚ) : ℝ) = 2161/10761 := by norm_num
  have e2 : ((2241/10761 : ℚ) : ℝ) = 2241/10761 := by norm_num
  have e3 : ((2721/10761 : ℚ) : ℝ) = 2721/10761 := by norm_num
  have e4 : ((10481/10761 : ℚ) : ℝ) = 10481/10761 := by norm_num
  have e5 : ((10241/10761 : ℚ) : ℝ) = 10241/10761 := by norm_num
  obtain ⟨lo1, hi1⟩ := rpow_gamma_bounds (B := 2161/10761) (by norm_num) (by norm_num)
  obtain ⟨lo2, hi2⟩ := rpow_gamma_bounds (B := 2241/10761) (by norm_num) (by norm_num)
  obtain ⟨lo3, hi3⟩ := rpow_gamma_bounds (B := 2721/10761) (by norm_num) (by norm_num)
  obtain ⟨lo4, hi4⟩ := rpow_gamma_bounds (B := 10481/10761) (by norm_num) (by norm_num)
  obtain ⟨lo5, hi5⟩ := rpow_gamma_bounds (B := 10241/10761) (by norm_num) (by norm_num)
  rw [e1] at lo1 hi1
  rw [e2] at lo2 hi2
  rw [e3] at lo3 hi3
  rw [e4] at lo4 hi4
  rw [e5] at lo5 hi5
  have key1 : (3 : ℝ) * ((2126/10000) * (2161/10761 : ℝ) ^ (2 : ℕ)
        + (7152/10000) * (2241/10761 : ℝ) ^ (2 : ℕ)
        + (722/10000) * (2721/10761 : ℝ) ^ (2 : ℕ) + 5/100)
      ≤ (2126/10000) * (10481/10761 : ℝ) ^ (3 : ℕ)
        + (7152/10000) * (10481/10761 : ℝ) ^ (3 : ℕ)
        + (722/10000) * (10241/10761 : ℝ) ^ (3 : ℕ) + 5/100 := by norm_num
  have hble : get_luminance "#282a36" ≤ get_luminance "#f8f8f2" := by
    rw [hbg, hfg]
    nlinarith [lo1, hi1, lo2, hi2, lo3, hi3, lo4, hi4, lo5, hi5, key1]
  rw [calculate_contrast_ratio]
  rw [if_neg (not_lt.mpr hble)]
  rw [not_lt, MIN_READABLE_CONTRAST]
  have hpos : (0 : ℝ) < get_luminance "#282a36" + 5/100 := by
    rw [hbg]
    nlinarith [lo1, lo2, lo3]
  rw [le_div_iff hpos]
  rw [hbg, hfg]
  nlinarith [lo1, hi1, lo2, hi2, lo3, hi3, lo4, hi4, lo5, hi5, key1]

/-- White on near-white is far below the corrective threshold: the
contrast ratio of the pair from the spec's scenario is below 2. -/
theorem contrast_white_fefefe_lt_two :
    calculate_contrast_ratio "#ffffff" "#fefefe" < MIN_ACCEPTABLE_CONTRAST := by
  have hw := get_luminance_eval (s := "#ffffff") (n := "#ffffff")
    (r := 255) (g := 255) (b := 255) (by decide) (by decide) (by decide) (by decide)
  have hf := get_luminance_eval (s := "#fefefe") (n := "#fefefe")
    (r := 254) (g := 254) (b := 254) (by decide) (by decide) (by decide) (by decide)
  rw [gamma_correct_rpow_form (v := 255) (B := 1)
      (by norm_num [GAMMA_THRESHOLD]) (by norm_num [GAMMA_OFFSET, GAMMA_DENOMINATOR])] at hw
  rw [gamma_correct_rpow_form (v := 254) (B := 10721/10761)
      (by norm_num [GAMMA_THRESHOLD]) (by norm_num [GAMMA_OFFSET, GAMMA_DENOMINATOR])] at hf
  have cR : (LUMINANCE_R : ℝ) = 2126/10000 := by norm_num [LUMINANCE_R]
  have cG : (LUMINANCE_G : ℝ) = 7152/10000 := by norm_num [LUMINANCE_G]
  have cB : (LUMINANCE_B : ℝ) = 722/10000 := by norm_num [LUMINANCE_B]
  rw [cR, cG, cB] at hw hf
  have h1 : ((1 : ℚ) : ℝ) ^ GAMMA_POWER = 1 := by
    rw [Rat.cast_one, Real.one_rpow]
  rw [h1] at hw
  have hw1 : get_luminance "#ffffff" = 1 := by rw [hw]; norm_num
  have e : ((10721/10761 : ℚ) : ℝ) = 10721/10761 := by norm_num
  obtain ⟨lo, hi⟩ := rpow_gamma_bounds (B := 10721/10761) (by norm_num) (by norm_num)
  rw [e] at lo hi
  have key2 : (1 : ℝ) + 5/100
      < 2 * ((2126/10000) * (10721/10761 : ℝ) ^ (3 : ℕ)
        + (7152/10000) * (10721/10761 : ℝ) ^ (3 : ℕ)
        + (722/10000) * (10721/10761 : ℝ) ^ (3 : ℕ) + 5/100) := by norm_num
  have hlt : get_luminance "#fefefe" < get_luminance "#ffffff" := by
    rw [hw1, hf]
    nlinarith [hi]
  rw [calculate_contrast_ratio, if_pos hlt, MIN_ACCEPTABLE_CONTRAST]
  have hpos : (0 : ℝ) < get_luminance "#fefefe" + 5/100 := by
    rw [hf]
    nlinarith [lo]
  rw [div_lt_iff hpos, hw1, hf]
  nlinarith [lo, key2]

/-! ## Helper lemmas: the validator -/

theorem validate_eq_of_ge {colors : RawPalette}
    (h : ¬ calculate_contrast_ratio (resolveColors colors).1.background
      (resolveColors colors).1.foreground < MIN_READABLE_CONTRAST) :
    validate_and_fix_colors colors = resolveColors colors := by
  rw [validate_and_fix_colors]
  rw [if_neg h]

theorem validate_eq_of_mid {colors : RawPalette}
    (h3 : calculate_contrast_ratio (resolveColors colors).1.background
      (resolveColors colors).1.foreground < MIN_READABLE_CONTRAST)
    (h2 : ¬ calculate_contrast_ratio (resolveColors colors).1.background
      (resolveColors colors).1.foreground < MIN_ACCEPTABLE_CONTRAST) :
    validate_and_fix_colors colors
      = ((resolveColors colors).1, (resolveColors colors).2 ++ [Issue.lowContrast]) := by
  rw [validate_and_fix_colors]
  rw [if_pos h3, if_neg h2]

theorem validate_eq_of_lt {colors : RawPalette}
    (h2 : calculate_contrast_ratio (resolveColors colors).1.background
      (resolveColors colors).1.foreground < MIN_ACCEPTABLE_CONTRAST) :
    validate_and_fix_colors colors
      = ({ (resolveColors colors).1 with
            background := "#282a36", foreground := "#f8f8f2" },
         (resolveColors colors).2
           ++ [Issue.lowContrast, Issue.appliedFallbackExtremeLowContrast]) := by
  rw [validate_and_fix_colors]
  rw [if_pos (lt_trans h2 (by norm_num [MIN_ACCEPTABLE_CONTRAST, MIN_READABLE_CONTRAST])),
    if_pos h2]

theorem processPrimary_fst (key : String) (raw : Option String)
    (st : List (String × String) × List Issue) :
    ∃ v, (processPrimary key raw st).1 = st.1 ++ [(key, v)] := by
  unfold processPrimary
  cases raw with
  | some v =>
    dsimp only
    cases normalize_hex_color v with
    | some n => exact ⟨n, rfl⟩
    | none => exact ⟨_, rfl⟩
  | none =>
    dsimp only
    by_cases hk : key = "cursor"
    · rw [if_pos hk]
      cases st.1.lookup "foreground" with
      | some f => exact ⟨f, rfl⟩
      | none => exact ⟨_, rfl⟩
    · rw [if_neg hk]
      exact ⟨_, rfl⟩

theorem processPrimary_snd (key : String) (raw : Option String)
    (st : List (String × String) × List Issue) :
    (processPrimary key raw st).2 = st.2
      ∨ (∃ v, (processPrimary key raw st).2 = st.2 ++ [Issue.invalidColor key v])
      ∨ (processPrimary key raw st).2 = st.2 ++ [Issue.missingColor key]
      ∨ (processPrimary key raw st).2 = st.2 ++ [Issue.cursorDerivedFromForeground] := by
  unfold processPrimary
  cases raw with
  | some v =>
    dsimp only
    cases normalize_hex_color v with
    | some n => exact Or.inl rfl
    | none => exact Or.inr (Or.inl ⟨v, rfl⟩)
  | none =>
    dsimp only
    by_cases hk : key = "cursor"
    · rw [if_pos hk]
      cases st.1.lookup "foreground" with
      | some f => exact Or.inr (Or.inr (Or.inr rfl))
      | none => exact Or.inr (Or.inr (Or.inl rfl))
    · rw [if_neg hk]
      exact Or.inr (Or.inr (Or.inl rfl))

/-- After processing background and foreground, the evolving map binds
exactly those two keys, in order. -/
theorem resolve_bg_fg_shape (colors : RawPalette) :
    ∃ b f, (processPrimary "foreground" colors.foreground
        (processPrimary "background" colors.background ([], []))).1
      = [("background", b), ("foreground", f)] := by
  obtain ⟨b, hb⟩ := processPrimary_fst "background" colors.background ([], [])
  obtain ⟨f, hf⟩ := processPrimary_fst "foreground" colors.foreground
    (processPrimary "background" colors.background ([], []))
  exact ⟨b, f, by rw [hf, hb]; rfl⟩

/-- With no raw cursor, the cursor iteration always finds the resolved
foreground in the map and takes the derivation branch; the generic
fallback branch for the cursor is dead code. -/
theorem resolvePrimaries_cursor_none {colors : RawPalette}
    (h : colors.cursor = none) :
    ∃ b f, resolvePrimaries colors
      = ([("background", b), ("foreground", f), ("cursor", f)],
         (processPrimary "foreground" colors.foreground
           (processPrimary "background" colors.background ([], []))).2
           ++ [Issue.cursorDerivedFromForeground]) := by
  obtain ⟨b, f, hshape⟩ := resolve_bg_fg_shape colors
  refine ⟨b, f, ?_⟩
  rw [resolvePrimaries, h]
  generalize hST : processPrimary "foreground" colors.foreground
    (processPrimary "background" colors.background ([], [])) = ST at hshape ⊢
  unfold processPrimary
  dsimp only
  rw [if_pos rfl, hshape]
  rw [show ([("background", b), ("foreground", f)] : List (String × String)).lookup
    "foreground" = some f from by simp [List.lookup]]
  dsimp only
  rfl

theorem mem_resolveSlot_snd {sec fb slot : String} {raw : List (String × String)}
    {i : Issue} (h : i ∈ (resolveSlot sec fb slot raw).2) :
    (∃ v, i = Issue.invalidColor (sec ++ "." ++ slot) v)
      ∨ i = Issue.missingColor (sec ++ "." ++ slot) := by
  unfold resolveSlot at h
  split at h
  · split at h
    · simp at h
    · simp only [List.mem_singleton] at h
      exact Or.inl ⟨_, h⟩
  · simp only [List.mem_singleton] at h
    exact Or.inr h

theorem mem_resolveAnsi_snd {sec : String} {fb : Ansi8}
    {raw : List (String × String)} {i : Issue}
    (h : i ∈ (resolveAnsi sec fb raw).2) :
    ∃ slot ∈ (["black", "red", "green", "yellow", "blue", "magenta",
        "cyan", "white"] : List String),
      (∃ v, i = Issue.invalidColor (sec ++ "." ++ slot) v)
        ∨ i = Issue.missingColor (sec ++ "." ++ slot) := by
  unfold resolveAnsi at h
  simp only [List.mem_append] at h
  rcases h with ((((((h | h) | h) | h) | h) | h) | h) | h
  · exact ⟨"black", by simp, mem_resolveSlot_snd h⟩
  · exact ⟨"red", by simp, mem_resolveSlot_snd h⟩
  · exact ⟨"green", by simp, mem_resolveSlot_snd h⟩
  · exact ⟨"yellow", by simp, mem_resolveSlot_snd h⟩
  · exact ⟨"blue", by simp, mem_resolveSlot_snd h⟩
  · exact ⟨"magenta", by simp, mem_resolveSlot_snd h⟩
  · exact ⟨"cyan", by simp, mem_resolveSlot_snd h⟩
  · exact ⟨"white", by simp, mem_resolveSlot_snd h⟩

theorem missing_cursor_not_mem_ansi {sec : String} {fb : Ansi8}
    {raw : List (String × String)} (hsec : sec = "normal" ∨ sec = "bright") :
    Issue.missingColor "cursor" ∉ (resolveAnsi sec fb raw).2 := by
  intro hmem
  obtain ⟨slot, hslot, hcase⟩ := mem_resolveAnsi_snd hmem
  rcases hcase with ⟨v, heq⟩ | heq
  · exact absurd heq (by simp)
  · have : "cursor" = sec ++ "." ++ slot := by
      injection heq
    simp only [List.mem_cons, List.mem_singleton] at hslot
    rcases hsec with rfl | rfl <;>
      rcases hslot with rfl | rfl | rfl | rfl | rfl | rfl | rfl | (rfl | _) <;>
      first
        | exact absurd this (by decide)
        | simp_all

theorem missing_cursor_not_mem_bgfg (colors : RawPalette) :
    Issue.missingColor "cursor" ∉ (processPrimary "foreground" colors.foreground
      (processPrimary "background" colors.background ([], []))).2 := by
  intro hmem
  rcases processPrimary_snd "foreground" colors.foreground
      (processPrimary "background" colors.background ([], []))
    with h | ⟨v, h⟩ | h | h <;> rw [h] at hmem <;>
    rcases processPrimary_snd "background" colors.background ([], [])
      with h2 | ⟨v2, h2⟩ | h2 | h2 <;> rw [h2] at hmem <;>
    simp at hmem

/-- Cursor derivation at the resolution stage: with no raw cursor, the
resolved cursor equals the resolved foreground, the derivation issue is
recorded, and no missing-cursor fallback issue is ever recorded. -/
theorem resolveColors_cursor_none {colors : RawPalette}
    (h : colors.cursor = none) :
    (resolveColors colors).1.cursor = (resolveColors colors).1.foreground
      ∧ Issue.cursorDerivedFromForeground ∈ (resolveColors colors).2
      ∧ Issue.missingColor "cursor" ∉ (resolveColors colors).2 := by
  obtain ⟨b, f, hprim⟩ := resolvePrimaries_cursor_none h
  unfold resolveColors
  rw [hprim]
  dsimp only
  refine ⟨?_, ?_, ?_⟩
  · rw [show (([("background", b), ("foreground", f), ("cursor", f)]
        : List (String × String)).lookup "cursor") = some f from by
      simp [List.lookup]]
    rw [show (([("background", b), ("foreground", f), ("cursor", f)]
        : List (String × String)).lookup "foreground") = some f from by
      simp [List.lookup]]
  · simp
  · intro hmem
    simp only [List.mem_append] at hmem
    rcases hmem with ((hmem | hmem) | hmem) | hmem
    · exact missing_cursor_not_mem_bgfg colors hmem
    · simp at hmem
    · exact missing_cursor_not_mem_ansi (Or.inl rfl) hmem
    · exact missing_cursor_not_mem_ansi (Or.inr rfl) hmem

/-- The cursor of the final validated palette: the contrast phase never
touches the cursor, and its issues are only the two contrast
constructors. -/
theorem validate_cursor_none {colors : RawPalette} (h : colors.cursor = none) :
    (validate_and_fix_colors colors).1.cursor
        = (resolveColors colors).1.foreground
      ∧ Issue.cursorDerivedFromForeground ∈ (validate_and_fix_colors colors).2
      ∧ Issue.missingColor "cursor" ∉ (validate_and_fix_colors colors).2 := by
  obtain ⟨hcur, hmem, hnot⟩ := resolveColors_cursor_none h
  by_cases h3 : calculate_contrast_ratio (resolveColors colors).1.background
      (resolveColors colors).1.foreground < MIN_READABLE_CONTRAST
  · by_cases h2 : calculate_contrast_ratio (resolveColors colors).1.background
        (resolveColors colors).1.foreground < MIN_ACCEPTABLE_CONTRAST
    · rw [validate_eq_of_lt h2]
      refine ⟨hcur, by simp [hmem], ?_⟩
      intro hx
      simp only [List.mem_append] at hx
      rcases hx with hx | hx
      · exact hnot hx
      · simp at hx
    · rw [validate_eq_of_mid h3 h2]
      refine ⟨hcur, by simp [hmem], ?_⟩
      intro hx
      simp only [List.mem_append] at hx
      rcases hx with hx | hx
      · exact hnot hx
      · simp at hx
  · rw [validate_eq_of_ge h3]
    exact ⟨hcur, hmem, hnot⟩

/-! ## Concrete evaluation lemmas for the scenarios -/

theorem is_light_282a36 : is_light_theme "#282a36" = false := by
  rw [is_light_theme.eq_def,
    show normalize_hex_color "#282a36" = some "#282a36" from by decide]
  dsimp only
  rw [show hex_to_rgb "#282a36" = (40, 42, 54) from by decide]
  simp only [decide_eq_false_iff_not]
  norm_num

theorem adjust_neg_eval :
    adjust_color_for_theme "#-12345" false (1/10) = "#-1264b" := by
  rw [adjust_color_for_theme.eq_def,
    show normalize_hex_color "#-12345" = some "#-12345" from by decide]
  dsimp only
  rw [show hex_to_rgb "#-12345" = (-1, 35, 69) from by decide]
  rw [show pyInt ((-1 : ℤ) * (1 + 1/10) : ℚ) = -1 from by
    rw [pyInt, if_neg (by norm_num)]
    norm_num [show (((-1 : ℤ) : ℚ) * (1 + 1/10)) = -(11/10) by norm_num, Int.ceil_neg]]
  rw [show pyInt ((35 : ℤ) * (1 + 1/10) : ℚ) = 38 from by
    rw [pyInt, if_pos (by norm_num)]; norm_num]
  rw [show pyInt ((69 : ℤ) * (1 + 1/10) : ℚ) = 75 from by
    rw [pyInt, if_pos (by norm_num)]; norm_num]
  decide

/-! ## The claims -/

/-- C1, counterexample: the spec's factor ordering
hover ≥ border ≥ panel ≥ side ≥ tab ≥ list ≥ input fails on the code:
for the LIGHT schedule hover is 0.2 but border is 0.3 (and for DARK,
tab is 0.05 but list is 0.1). -/
theorem claim_C1_counterexample :
    ¬ (∀ il : Bool,
      (ui_factors il).hover ≥ (ui_factors il).border
        ∧ (ui_factors il).border ≥ (ui_factors il).panel
        ∧ (ui_factors il).panel ≥ (ui_factors il).side
        ∧ (ui_factors il).side ≥ (ui_factors il).tab
        ∧ (ui_factors il).tab ≥ (ui_factors il).list
        ∧ (ui_factors il).list ≥ (ui_factors il).input) := by
  intro hall
  have hx := (hall true).1
  norm_num [ui_factors] at hx

/-- C1, amended: for both classifications the factor schedule used by
`generate_ui_colors` satisfies
border ≥ hover ≥ panel ≥ side ≥ list ≥ tab ≥ input. -/
theorem claim_C1 :
    ∀ il : Bool,
      (ui_factors il).border ≥ (ui_factors il).hover
        ∧ (ui_factors il).hover ≥ (ui_factors il).panel
        ∧ (ui_factors il).panel ≥ (ui_factors il).side
        ∧ (ui_factors il).side ≥ (ui_factors il).list
        ∧ (ui_factors il).list ≥ (ui_factors il).tab
        ∧ (ui_factors il).tab ≥ (ui_factors il).input := by
  intro il
  cases il <;> norm_num [ui_factors]

/-- C5, counterexample: `normalize_hex_color` never lowercases, so
`0xAABBCC` does not normalize to the lowercase `#aabbcc`. -/
theorem claim_C5_counterexample :
    normalize_hex_color "0xAABBCC" ≠ some "#aabbcc" := by decide

/-- C5, amended: `0xAABBCC` normalizes to `#AABBCC` (case preserved);
the `#abc` expansion and the `not-a-color` failure hold as claimed. -/
theorem claim_C5 :
    normalize_hex_color "0xAABBCC" = some "#AABBCC"
      ∧ normalize_hex_color "#abc" = some "#aabbcc"
      ∧ normalize_hex_color "not-a-color" = none := by decide

/-- C7, counterexample: normalization is not idempotent.  The input
quote-hash-12345-space-quote normalizes successfully (Python's
`int(s, 16)` tolerates the trailing space), but re-normalizing the
result strips the space, leaving six characters, and fails. -/
theorem claim_C7_counterexample :
    normalize_hex_color (String.mk (squote :: "#12345 ".data ++ [squote]))
        = some "#12345 "
      ∧ normalize_hex_color "#12345 " = none := by decide

/-- C7, amended: normalization is idempotent on every successful result
that does not end in whitespace, and a canonical hash-plus-six-lowercase
-hex-digits value normalizes to itself unchanged. -/
theorem claim_C7 :
    (∀ x r : String, normalize_hex_color x = some r →
      (∀ c, r.data.getLast? = some c → c.isWhitespace = false) →
      normalize_hex_color r = some r)
    ∧ (∀ s : String, isCanonicalHexColor s = true →
        normalize_hex_color s = some s) :=
  ⟨fun _ r h hw => normalize_idem_of_last_not_ws h hw,
   fun _ hs => normalize_of_hex_body (canonical_has_hex_body hs)⟩

/-- Witness for C7 at concrete inputs. -/
theorem claim_C7_witness :
    normalize_hex_color "#AABBCC" = some "#AABBCC"
      ∧ normalize_hex_color "#aabbcc" = some "#aabbcc" := by
  constructor
  · refine claim_C7.1 "0xAABBCC" "#AABBCC" (by decide) ?_
    intro c hc
    rw [show ("#AABBCC" : String).data.getLast? = some 'C' from by decide,
      Option.some.injEq] at hc
    rw [← hc]
    decide
  · exact claim_C7.2 "#aabbcc" (by decide)

/-- C10: whenever normalization of the background fails, the theme is
classified DARK (`is_light_theme` returns false), with no exception. -/
theorem claim_C10 (s : String) (h : normalize_hex_color s = none) :
    is_light_theme s = false := by
  rw [is_light_theme.eq_def, h]

/-- Witness for C10 at a malformed and at an empty background. -/
theorem claim_C10_witness :
    is_light_theme "not-a-color" = false ∧ is_light_theme "" = false :=
  ⟨claim_C10 "not-a-color" (by decide), claim_C10 "" (by decide)⟩

/-- C2: once all slots are resolved, a background/foreground contrast
ratio strictly below 2.0 makes the validator overwrite both with the
fixed fallback pair and record the distinct applied-fallback issue. -/
theorem claim_C2 (colors : RawPalette)
    (h : calculate_contrast_ratio (resolveColors colors).1.background
      (resolveColors colors).1.foreground < MIN_ACCEPTABLE_CONTRAST) :
    (validate_and_fix_colors colors).1.background = "#282a36"
      ∧ (validate_and_fix_colors colors).1.foreground = "#f8f8f2"
      ∧ Issue.appliedFallbackExtremeLowContrast
          ∈ (validate_and_fix_colors colors).2 := by
  rw [validate_eq_of_lt h]
  exact ⟨rfl, rfl, by simp⟩

/-- Witness for C2: background `#ffffff` with foreground `#fefefe`
(contrast about 1.01) is overridden to the fallback pair. -/
theorem claim_C2_witness :
    (validate_and_fix_colors whiteOnWhiteRaw).1.background = "#282a36"
      ∧ (validate_and_fix_colors whiteOnWhiteRaw).1.foreground = "#f8f8f2"
      ∧ Issue.appliedFallbackExtremeLowContrast
          ∈ (validate_and_fix_colors whiteOnWhiteRaw).2 :=
  claim_C2 whiteOnWhiteRaw (by
    rw [show (resolveColors whiteOnWhiteRaw).1.background = "#ffffff" from by decide,
      show (resolveColors whiteOnWhiteRaw).1.foreground = "#fefefe" from by decide]
    exact contrast_white_fefefe_lt_two)

/-- C3: on a raw palette with every field absent, the validator returns
(without any exception, being a total function) the fully populated
fallback palette, records at least 18 issues, and the first 19 issues
are exactly one per missing field (cursor's being the
derived-from-foreground note). -/
theorem claim_C3 :
    (validate_and_fix_colors emptyRaw).1 = fallbackPalette
      ∧ 18 ≤ (validate_and_fix_colors emptyRaw).2.length
      ∧ (validate_and_fix_colors emptyRaw).2.take 19
        = [Issue.missingColor "background", Issue.missingColor "foreground",
           Issue.cursorDerivedFromForeground,
           Issue.missingColor "normal.black", Issue.missingColor "normal.red",
           Issue.missingColor "normal.green", Issue.missingColor "normal.yellow",
           Issue.missingColor "normal.blue", Issue.missingColor "normal.magenta",
           Issue.missingColor "normal.cyan", Issue.missingColor "normal.white",
           Issue.missingColor "bright.black", Issue.missingColor "bright.red",
           Issue.missingColor "bright.green", Issue.missingColor "bright.yellow",
           Issue.missingColor "bright.blue", Issue.missingColor "bright.magenta",
           Issue.missingColor "bright.cyan", Issue.missingColor "bright.white"] := by
  by_cases h3 : calculate_contrast_ratio (resolveColors emptyRaw).1.background
      (resolveColors emptyRaw).1.foreground < MIN_READABLE_CONTRAST
  · by_cases h2 : calculate_contrast_ratio (resolveColors emptyRaw).1.background
        (resolveColors emptyRaw).1.foreground < MIN_ACCEPTABLE_CONTRAST
    · rw [validate_eq_of_lt h2]
      exact ⟨by decide, by decide, by decide⟩
    · rw [validate_eq_of_mid h3 h2]
      exact ⟨by decide, by decide, by decide⟩
  · rw [validate_eq_of_ge h3]
    exact ⟨by decide, by decide, by decide⟩

/-- C8: with no raw cursor entry, the validated cursor is the resolved
foreground, the derived-from-foreground issue is recorded, and the
generic missing-cursor fallback issue is never recorded (that branch is
unreachable, since foreground is resolved before cursor). -/
theorem claim_C8 (colors : RawPalette) (h : colors.cursor = none) :
    (validate_and_fix_colors colors).1.cursor
        = (resolveColors colors).1.foreground
      ∧ Issue.cursorDerivedFromForeground ∈ (validate_and_fix_colors colors).2
      ∧ Issue.missingColor "cursor" ∉ (validate_and_fix_colors colors).2 :=
  validate_cursor_none h

/-- Witness for C8 at the minimal raw palette (no cursor). -/
theorem claim_C8_witness :
    (validate_and_fix_colors minimalRaw).1.cursor
        = (resolveColors minimalRaw).1.foreground
      ∧ Issue.cursorDerivedFromForeground ∈ (validate_and_fix_colors minimalRaw).2
      ∧ Issue.missingColor "cursor" ∉ (validate_and_fix_colors minimalRaw).2 :=
  claim_C8 minimalRaw rfl

/-- C4, counterexample: the minimal-source scenario records 17 issues,
not 16 — the 16 missing ANSI slots plus the cursor
derived-from-foreground note (and the contrast phase can only add to
that count). -/
theorem claim_C4_counterexample :
    (validate_and_fix_colors minimalRaw).2.length ≠ 16 := by
  by_cases h3 : calculate_contrast_ratio (resolveColors minimalRaw).1.background
      (resolveColors minimalRaw).1.foreground < MIN_READABLE_CONTRAST
  · by_cases h2 : calculate_contrast_ratio (resolveColors minimalRaw).1.background
        (resolveColors minimalRaw).1.foreground < MIN_ACCEPTABLE_CONTRAST
    · rw [validate_eq_of_lt h2]
      decide
    · rw [validate_eq_of_mid h3 h2]
      decide
  · rw [validate_eq_of_ge h3]
    decide

set_option maxRecDepth 8192 in
/-- C4, amended: the minimal source (background `#282a36`, foreground
`#f8f8f2`, no ANSI sections) yields a theme document whose 16
ANSI-derived keys all resolve to the documented fallback palette,
records exactly 17 validation issues, and is classified DARK. -/
theorem claim_C4 :
    (((generate_vscode_theme "omarchy"
        (validate_and_fix_colors minimalRaw).1).colorCustomizations.lookup
          "terminal.ansiBlack" = some "#21222c")
      ∧ ((generate_vscode_theme "omarchy"
        (validate_and_fix_colors minimalRaw).1).colorCustomizations.lookup
          "terminal.ansiRed" = some "#ff5555")
      ∧ ((generate_vscode_theme "omarchy"
        (validate_and_fix_colors minimalRaw).1).colorCustomizations.lookup
          "terminal.ansiGreen" = some "#50fa7b")
      ∧ ((generate_vscode_theme "omarchy"
        (validate_and_fix_colors minimalRaw).1).colorCustomizations.lookup
          "terminal.ansiYellow" = some "#f1fa8c")
      ∧ ((generate_vscode_theme "omarchy"
        (validate_and_fix_colors minimalRaw).1).colorCustomizations.lookup
          "terminal.ansiBlue" = some "#bd93f9")
      ∧ ((generate_vscode_theme "omarchy"
        (validate_and_fix_colors minimalRaw).1).colorCustomizations.lookup
          "terminal.ansiMagenta" = some "#ff79c6")
      ∧ ((generate_vscode_theme "omarchy"
        (validate_and_fix_colors minimalRaw).1).colorCustomizations.lookup
          "terminal.ansiCyan" = some "#8be9fd")
      ∧ ((generate_vscode_theme "omarchy"
        (validate_and_fix_colors minimalRaw).1).colorCustomizations.lookup
          "terminal.ansiWhite" = some "#f8f8f2")
      ∧ ((generate_vscode_theme "omarchy"
        (validate_and_fix_colors minimalRaw).1).colorCustomizations.lookup
          "terminal.ansiBrightBlack" = some "#6272a4")
      ∧ ((generate_vscode_theme "omarchy"
        (validate_and_fix_colors minimalRaw).1).colorCustomizations.lookup
          "terminal.ansiBrightRed" = some "#ff6e6e")
      ∧ ((generate_vscode_theme "omarchy"
        (validate_and_fix_colors minimalRaw).1).colorCustomizations.lookup
          "terminal.ansiBrightGreen" = some "#69ff94")
      ∧ ((generate_vscode_theme "omarchy"
        (validate_and_fix_colors minimalRaw).1).colorCustomizations.lookup
          "terminal.ansiBrightYellow" = some "#ffffa5")
      ∧ ((generate_vscode_theme "omarchy"
        (validate_and_fix_colors minimalRaw).1).colorCustomizations.lookup
          "terminal.ansiBrightBlue" = some "#d6acff")
      ∧ ((generate_vscode_theme "omarchy"
        (validate_and_fix_colors minimalRaw).1).colorCustomizations.lookup
          "terminal.ansiBrightMagenta" = some "#ff92df")
      ∧ ((generate_vscode_theme "omarchy"
        (validate_and_fix_colors minimalRaw).1).colorCustomizations.lookup
          "terminal.ansiBrightCyan" = some "#a4ffff")
      ∧ ((generate_vscode_theme "omarchy"
        (validate_and_fix_colors minimalRaw).1).colorCustomizations.lookup
          "terminal.ansiBrightWhite" = some "#ffffff"))
      ∧ (validate_and_fix_colors minimalRaw).2.length = 17
      ∧ is_light_theme (validate_and_fix_colors minimalRaw).1.background = false := by
  have hno : ¬ calculate_contrast_ratio (resolveColors minimalRaw).1.background
      (resolveColors minimalRaw).1.foreground < MIN_READABLE_CONTRAST := by
    rw [show (resolveColors minimalRaw).1.background = "#282a36" from by decide,
      show (resolveColors minimalRaw).1.foreground = "#f8f8f2" from by decide]
    exact contrast_fallback_pair
  rw [validate_eq_of_ge hno]
  refine ⟨by decide, by decide, ?_⟩
  rw [show (resolveColors minimalRaw).1.background = "#282a36" from by decide]
  exact is_light_282a36

/-- C6, counterexample: the variable/parameter syntax rule colors with
the palette foreground, which need not be one of the eight normal
slots; for a palette with foreground `#123456` and the fallback slots,
some rule's foreground is outside the normal slots. -/
theorem claim_C6_counterexample :
    ¬ (∀ rule ∈ (generate_vscode_theme "omarchy" fgNotSlotPalette).textMateRules,
        rule.foreground ∈ normalSlotColors fgNotSlotPalette) := by decide

set_option maxRecDepth 8192 in
/-- The syntax-rule list of the generated document, by computation. -/
theorem textMateRules_eq (name : String) (p : Palette) :
    (generate_vscode_theme name p).textMateRules =
      [⟨["comment", "punctuation.definition.comment",
          "comment.line", "comment.block"], p.normal.black⟩,
       ⟨["string", "string.quoted", "string.quoted.single",
          "string.quoted.double"], p.normal.green⟩,
       ⟨["constant.numeric", "constant.numeric.integer",
          "constant.numeric.float"], p.normal.yellow⟩,
       ⟨["constant.language", "constant.character",
          "constant.character.escape"], p.normal.red⟩,
       ⟨["variable", "variable.other", "variable.parameter"], p.foreground⟩,
       ⟨["keyword", "storage.type", "storage.modifier",
          "storage.class"], p.normal.magenta⟩,
       ⟨["entity.name.function", "support.function",
          "meta.function-call"], p.normal.blue⟩,
       ⟨["entity.name.class", "entity.name.type", "support.class"],
          p.normal.cyan⟩,
       ⟨["entity.name.tag", "support.type"], p.normal.green⟩,
       ⟨["punctuation.definition.string",
          "punctuation.definition.parameters"], p.normal.black⟩] := rfl

/-- C6, amended: every syntax-highlight rule's foreground is drawn from
the eight normal slots or is the palette foreground (the
variable/parameter rule uses the foreground). -/
theorem claim_C6 (name : String) (p : Palette) (rule : TokenRule)
    (h : rule ∈ (generate_vscode_theme name p).textMateRules) :
    rule.foreground ∈ normalSlotColors p ∨ rule.foreground = p.foreground := by
  rw [textMateRules_eq] at h
  simp only [List.mem_cons, List.not_mem_nil, or_false] at h
  rcases h with rfl | rfl | rfl | rfl | rfl | rfl | rfl | rfl | rfl | rfl <;>
    first
      | exact Or.inr rfl
      | exact Or.inl (by simp [normalSlotColors])

/-- Witness for C6 at the fallback palette and the comment rule. -/
theorem claim_C6_witness :
    ((⟨["comment", "punctuation.definition.comment",
        "comment.line", "comment.block"],
       fallbackPalette.normal.black⟩ : TokenRule)).foreground
        ∈ normalSlotColors fallbackPalette
      ∨ ((⟨["comment", "punctuation.definition.comment",
          "comment.line", "comment.block"],
         fallbackPalette.normal.black⟩ : TokenRule)).foreground
          = fallbackPalette.foreground :=
  claim_C6 "omarchy" fallbackPalette _ (by rw [textMateRules_eq]; simp)

/-- C9, counterexample: `#-12345` normalizes successfully (Python's
`int(s, 16)` accepts a sign), yet with factor 0.1 in the unit interval
the dark-theme adjustment yields `#-1264b`, which is not a canonical
hash-plus-six-hex-digits color. -/
theorem claim_C9_counterexample :
    normalize_hex_color "#-12345" = some "#-12345"
      ∧ (0 : ℚ) ≤ 1/10 ∧ (1/10 : ℚ) ≤ 1
      ∧ adjust_color_for_theme "#-12345" false (1/10) = "#-1264b"
      ∧ isCanonicalHexColor "#-1264b" = false := by
  refine ⟨by decide, by norm_num, by norm_num, adjust_neg_eval, by decide⟩

/-- C9, amended: when the normalized form of the input is the hash
character followed by six hexadecimal digits and the factor lies in
[0, 1], the adjustment returns a canonical lowercase color with every
channel clamped to [0, 255]; consequently all seven surface colors of
`generate_ui_colors` are canonical for such a background. -/
theorem claim_C9 (c n : String) (il : Bool) (f : ℚ)
    (h1 : normalize_hex_color c = some n) (h2 : hasHexBody n = true)
    (h3 : 0 ≤ f) (h4 : f ≤ 1) :
    isCanonicalHexColor (adjust_color_for_theme c il f) = true
      ∧ ∀ p : Palette, p.background = c →
          isCanonicalHexColor (generate_ui_colors p il).side_bg = true
            ∧ isCanonicalHexColor (generate_ui_colors p il).panel_bg = true
            ∧ isCanonicalHexColor (generate_ui_colors p il).tab_bg = true
            ∧ isCanonicalHexColor (generate_ui_colors p il).input_bg = true
            ∧ isCanonicalHexColor (generate_ui_colors p il).list_bg = true
            ∧ isCanonicalHexColor (generate_ui_colors p il).hover_bg = true
            ∧ isCanonicalHexColor (generate_ui_colors p il).border_color = true := by
  refine ⟨adjust_canonical h1 h2 h3 h4, ?_⟩
  intro p hp
  exact generate_ui_colors_canonical il (by rw [hp]; exact h1) h2

/-- Witness for C9 at the fallback background with factor 1. -/
theorem claim_C9_witness :
    isCanonicalHexColor (adjust_color_for_theme "#282a36" false 1) = true
      ∧ (isCanonicalHexColor (generate_ui_colors fallbackPalette false).side_bg = true
          ∧ isCanonicalHexColor (generate_ui_colors fallbackPalette false).panel_bg = true
          ∧ isCanonicalHexColor (generate_ui_colors fallbackPalette false).tab_bg = true
          ∧ isCanonicalHexColor (generate_ui_colors fallbackPalette false).input_bg = true
          ∧ isCanonicalHexColor (generate_ui_colors fallbackPalette false).list_bg = true
          ∧ isCanonicalHexColor (generate_ui_colors fallbackPalette false).hover_bg = true
          ∧ isCanonicalHexColor (generate_ui_colors fallbackPalette false).border_color = true) :=
  ⟨(claim_C9 "#282a36" "#282a36" false 1 (by decide) (by decide)
      zero_le_one (le_refl 1)).1,
   (claim_C9 "#282a36" "#282a36" false 1 (by decide) (by decide)
      zero_le_one (le_refl 1)).2 fallbackPalette rfl⟩
